import Mathlib

/-! Verification of the driver/truck/assignment management backend.

The development shallowly embeds the Python sources under backend/app:
the license hierarchy (models/license_type.py), the three in-memory
repositories (repositories/*.py), and the service layer
(services/*.py).  Python dicts are modelled as insertion-ordered
key/value lists, exceptions as an error type returned in Except, and
mutation as explicit state passing: an operation that raises returns
the stores unchanged, which is faithful because in the source every
raise happens before any store mutation. -/

/-- License categories, from the LicenseType enum in
models/license_type.py. -/
inductive LicenseType where
  | A
  | B
  | C
  | D
  | E
deriving DecidableEq, Repr

/-- Hierarchy level of each license type (get_license_hierarchy):
higher numbers indicate higher privilege levels. -/
def LicenseType.get_license_hierarchy : LicenseType → Nat
  | .A => 1
  | .B => 2
  | .C => 3
  | .D => 4
  | .E => 5

/-- can_operate: this license can operate a vehicle requiring
`required_license` iff its hierarchy level meets or exceeds the
required level. -/
def LicenseType.can_operate (self required_license : LicenseType) : Bool :=
  decide (self.get_license_hierarchy ≥ required_license.get_license_hierarchy)

/-- The five license types, in the order the hierarchy dict lists them. -/
def LicenseType.allValues : List LicenseType :=
  [.A, .B, .C, .D, .E]

/-- get_compatible_licenses: the set of all license types whose level is
at most this one's level (the Python function returns a set built from
the hierarchy dict). -/
def LicenseType.get_compatible_licenses (self : LicenseType) : Finset LicenseType :=
  (LicenseType.allValues.filter
    (fun t => decide (t.get_license_hierarchy ≤ self.get_license_hierarchy))).toFinset

/-- Driver entity (models/driver.py): optional id, name, license type. -/
structure Driver where
  id : Option Nat
  name : String
  license_type : LicenseType
deriving DecidableEq, Repr

/-- Truck entity (models/truck.py): optional id, plate, minimum license. -/
structure Truck where
  id : Option Nat
  plate : String
  minimum_license_type : LicenseType
deriving DecidableEq, Repr

/-- Calendar date (ISO year-month-day).  The services only ever compare
dates for equality, so the representation is three numbers. -/
structure CalendarDate where
  year : Nat
  month : Nat
  day : Nat
deriving DecidableEq, Repr

/-- Assignment entity (models/assignment.py): optional id, driver id,
truck id and date. -/
structure Assignment where
  id : Option Nat
  driver_id : Nat
  truck_id : Nat
  assignment_date : CalendarDate
deriving DecidableEq, Repr

/-- Python dict.get on an insertion-ordered key/value list. -/
def dictGet {α : Type} (entries : List (Nat × α)) (k : Nat) : Option α :=
  (entries.find? (fun p => decide (p.1 = k))).map Prod.snd

/-- Python `k in dict`. -/
def dictContains {α : Type} (entries : List (Nat × α)) (k : Nat) : Bool :=
  entries.any (fun p => decide (p.1 = k))

/-- Python `dict[k] = v`: replaces the entry in place when the key is
present, appends a new entry otherwise. -/
def dictInsert {α : Type} (entries : List (Nat × α)) (k : Nat) (v : α) : List (Nat × α) :=
  if dictContains entries k then
    entries.map (fun p => if p.1 = k then (k, v) else p)
  else
    entries ++ [(k, v)]

/-- Python `del dict[k]`. -/
def dictDelete {α : Type} (entries : List (Nat × α)) (k : Nat) : List (Nat × α) :=
  entries.filter (fun p => decide (p.1 ≠ k))

/-- Access to the optional id field shared by the three entity types,
with the defining law of setting it (in the source, setting `e.id` and
reading it back yields the value written). -/
class EntityId (α : Type) where
  getId : α → Option Nat
  setId : α → Nat → α
  getId_setId : ∀ (e : α) (k : Nat), getId (setId e k) = some k

instance : EntityId Driver where
  getId := Driver.id
  setId := fun e k => { e with id := some k }
  getId_setId := fun _ _ => rfl

instance : EntityId Truck where
  getId := Truck.id
  setId := fun e k => { e with id := some k }
  getId_setId := fun _ _ => rfl

instance : EntityId Assignment where
  getId := Assignment.id
  setId := fun e k => { e with id := some k }
  getId_setId := fun _ _ => rfl

/-- In-memory repository: an id-to-entity map (insertion-ordered, as a
Python dict) plus the monotonic next-id counter.  This embeds
DriverRepository, TruckRepository and AssignmentRepository, whose code
is identical up to the entity type. -/
structure Repository (α : Type) where
  entries : List (Nat × α)
  next_id : Nat
deriving DecidableEq, Repr

/-- The repository constructor: empty storage, next id 1. -/
def Repository.empty {α : Type} : Repository α :=
  ⟨[], 1⟩

/-- Repository.create: sets the entity's id to next_id, stores it under
that key, increments the counter, and returns the stored entity. -/
def Repository.create {α : Type} [EntityId α] (repo : Repository α) (entity : α) :
    α × Repository α :=
  let stored := EntityId.setId entity repo.next_id
  (stored, ⟨dictInsert repo.entries repo.next_id stored, repo.next_id + 1⟩)

/-- Repository.get_by_id. -/
def Repository.get_by_id {α : Type} (repo : Repository α) (k : Nat) : Option α :=
  dictGet repo.entries k

/-- Repository.get_all: the stored entities in insertion order. -/
def Repository.get_all {α : Type} (repo : Repository α) : List α :=
  repo.entries.map Prod.snd

/-- Repository.update: returns none and leaves the store unchanged when
the key is absent; otherwise sets the entity's id to the key and
replaces the stored entry in place. -/
def Repository.update {α : Type} [EntityId α] (repo : Repository α) (k : Nat) (entity : α) :
    Option α × Repository α :=
  if dictContains repo.entries k then
    let stored := EntityId.setId entity k
    (some stored, ⟨dictInsert repo.entries k stored, repo.next_id⟩)
  else
    (none, repo)

/-- Repository.delete: removes the entry and reports whether the key was
present. -/
def Repository.delete {α : Type} (repo : Repository α) (k : Nat) : Bool × Repository α :=
  if dictContains repo.entries k then
    (true, ⟨dictDelete repo.entries k, repo.next_id⟩)
  else
    (false, repo)

/-- Repository.exists (named exists_id here): key membership. -/
def Repository.exists_id {α : Type} (repo : Repository α) (k : Nat) : Bool :=
  dictContains repo.entries k

/-- AssignmentRepository.find_by_driver_and_date: first stored assignment
with the given driver and date, in insertion order. -/
def Repository.find_by_driver_and_date (repo : Repository Assignment)
    (driver_id : Nat) (assignment_date : CalendarDate) : Option Assignment :=
  repo.get_all.find?
    (fun a => decide (a.driver_id = driver_id ∧ a.assignment_date = assignment_date))

/-- AssignmentRepository.find_by_truck_and_date. -/
def Repository.find_by_truck_and_date (repo : Repository Assignment)
    (truck_id : Nat) (assignment_date : CalendarDate) : Option Assignment :=
  repo.get_all.find?
    (fun a => decide (a.truck_id = truck_id ∧ a.assignment_date = assignment_date))

/-- AssignmentRepository.find_by_date. -/
def Repository.find_by_date (repo : Repository Assignment)
    (assignment_date : CalendarDate) : List Assignment :=
  repo.get_all.filter (fun a => decide (a.assignment_date = assignment_date))

/-- Typed domain errors, one constructor per raise site in the service
layer (exceptions/__init__.py together with the messages formatted in
the services): the data interpolated into each exception message is
carried structurally. -/
inductive ServiceError where
  | notFound (resource : String) (resourceId : Nat)
  | licenseValidation (driverLicense requiredLicense : LicenseType)
  | driverConflict (driverId existingTruckId : Nat) (d : CalendarDate)
  | truckConflict (truckId existingDriverId : Nat) (d : CalendarDate)
deriving DecidableEq, Repr

/-- The three singleton repositories wired together in dependencies.py. -/
structure Stores where
  drivers : Repository Driver
  trucks : Repository Truck
  assignments : Repository Assignment
deriving DecidableEq, Repr

/-- The initial state: all three repositories empty. -/
def Stores.empty : Stores :=
  ⟨Repository.empty, Repository.empty, Repository.empty⟩

/-- DriverService.create_driver: delegates to the repository. -/
def DriverService.create_driver (s : Stores) (d : Driver) : Driver × Stores :=
  let r := s.drivers.create d
  (r.1, { s with drivers := r.2 })

/-- DriverService.get_driver: raises NotFound when the id is absent. -/
def DriverService.get_driver (s : Stores) (driver_id : Nat) : Except ServiceError Driver :=
  match s.drivers.get_by_id driver_id with
  | none => .error (.notFound "Driver" driver_id)
  | some d => .ok d

/-- DriverService.update_driver. -/
def DriverService.update_driver (s : Stores) (driver_id : Nat) (d : Driver) :
    Except ServiceError Driver × Stores :=
  let r := s.drivers.update driver_id d
  match r.1 with
  | none => (.error (.notFound "Driver" driver_id), s)
  | some updated => (.ok updated, { s with drivers := r.2 })

/-- DriverService.delete_driver: raises NotFound when the repository
reports that nothing was deleted. -/
def DriverService.delete_driver (s : Stores) (driver_id : Nat) :
    Except ServiceError Unit × Stores :=
  let r := s.drivers.delete driver_id
  if r.1 then (.ok (), { s with drivers := r.2 })
  else (.error (.notFound "Driver" driver_id), s)

/-- TruckService.create_truck. -/
def TruckService.create_truck (s : Stores) (t : Truck) : Truck × Stores :=
  let r := s.trucks.create t
  (r.1, { s with trucks := r.2 })

/-- TruckService.get_truck. -/
def TruckService.get_truck (s : Stores) (truck_id : Nat) : Except ServiceError Truck :=
  match s.trucks.get_by_id truck_id with
  | none => .error (.notFound "Truck" truck_id)
  | some t => .ok t

/-- TruckService.update_truck. -/
def TruckService.update_truck (s : Stores) (truck_id : Nat) (t : Truck) :
    Except ServiceError Truck × Stores :=
  let r := s.trucks.update truck_id t
  match r.1 with
  | none => (.error (.notFound "Truck" truck_id), s)
  | some updated => (.ok updated, { s with trucks := r.2 })

/-- TruckService.delete_truck. -/
def TruckService.delete_truck (s : Stores) (truck_id : Nat) :
    Except ServiceError Unit × Stores :=
  let r := s.trucks.delete truck_id
  if r.1 then (.ok (), { s with trucks := r.2 })
  else (.error (.notFound "Truck" truck_id), s)

/-- AssignmentService._validate_license_compatibility: raises a
Validation error naming both license types when the driver's license
cannot operate the truck. -/
def AssignmentService.validate_license_compatibility
    (driver_license required_license : LicenseType) : Except ServiceError Unit :=
  if driver_license.can_operate required_license then .ok ()
  else .error (.licenseValidation driver_license required_license)

/-- AssignmentService._check_driver_availability: raises a Conflict
naming the existing assignment's truck id when some assignment with the
same driver and date is found whose id differs from the excluded one
(`none` in the create path). -/
def AssignmentService.check_driver_availability (repo : Repository Assignment)
    (driver_id : Nat) (assignment_date : CalendarDate)
    (exclude_assignment_id : Option Nat) : Except ServiceError Unit :=
  match repo.find_by_driver_and_date driver_id assignment_date with
  | none => .ok ()
  | some existing =>
    if existing.id ≠ exclude_assignment_id then
      .error (.driverConflict driver_id existing.truck_id assignment_date)
    else .ok ()

/-- AssignmentService._check_truck_availability: symmetric to the driver
check, naming the existing assignment's driver id. -/
def AssignmentService.check_truck_availability (repo : Repository Assignment)
    (truck_id : Nat) (assignment_date : CalendarDate)
    (exclude_assignment_id : Option Nat) : Except ServiceError Unit :=
  match repo.find_by_truck_and_date truck_id assignment_date with
  | none => .ok ()
  | some existing =>
    if existing.id ≠ exclude_assignment_id then
      .error (.truckConflict truck_id existing.driver_id assignment_date)
    else .ok ()

/-- AssignmentService.create_assignment: driver existence, truck
existence, license compatibility, driver availability, truck
availability, in that order; only when all checks pass is the
assignment stored. -/
def AssignmentService.create_assignment (s : Stores) (a : Assignment) :
    Except ServiceError Assignment × Stores :=
  match s.drivers.get_by_id a.driver_id with
  | none => (.error (.notFound "Driver" a.driver_id), s)
  | some driver =>
    match s.trucks.get_by_id a.truck_id with
    | none => (.error (.notFound "Truck" a.truck_id), s)
    | some truck =>
      match AssignmentService.validate_license_compatibility
          driver.license_type truck.minimum_license_type with
      | .error e => (.error e, s)
      | .ok _ =>
        match AssignmentService.check_driver_availability
            s.assignments a.driver_id a.assignment_date none with
        | .error e => (.error e, s)
        | .ok _ =>
          match AssignmentService.check_truck_availability
              s.assignments a.truck_id a.assignment_date none with
          | .error e => (.error e, s)
          | .ok _ =>
            let r := s.assignments.create a
            (.ok r.1, { s with assignments := r.2 })

/-- AssignmentService.get_assignment. -/
def AssignmentService.get_assignment (s : Stores) (assignment_id : Nat) :
    Except ServiceError Assignment :=
  match s.assignments.get_by_id assignment_id with
  | none => .error (.notFound "Assignment" assignment_id)
  | some a => .ok a

/-- AssignmentService.update_assignment: assignment existence, then the
same checks as creation except that the availability checks exclude the
assignment being updated; the final repository update cannot miss
because existence was already checked (the none branch is
unreachable). -/
def AssignmentService.update_assignment (s : Stores) (assignment_id : Nat)
    (a : Assignment) : Except ServiceError Assignment × Stores :=
  match s.assignments.get_by_id assignment_id with
  | none => (.error (.notFound "Assignment" assignment_id), s)
  | some _ =>
    match s.drivers.get_by_id a.driver_id with
    | none => (.error (.notFound "Driver" a.driver_id), s)
    | some driver =>
      match s.trucks.get_by_id a.truck_id with
      | none => (.error (.notFound "Truck" a.truck_id), s)
      | some truck =>
        match AssignmentService.validate_license_compatibility
            driver.license_type truck.minimum_license_type with
        | .error e => (.error e, s)
        | .ok _ =>
          match AssignmentService.check_driver_availability
              s.assignments a.driver_id a.assignment_date (some assignment_id) with
          | .error e => (.error e, s)
          | .ok _ =>
            match AssignmentService.check_truck_availability
                s.assignments a.truck_id a.assignment_date (some assignment_id) with
            | .error e => (.error e, s)
            | .ok _ =>
              let r := s.assignments.update assignment_id a
              match r.1 with
              | none => (.error (.notFound "Assignment" assignment_id), s)
              | some updated => (.ok updated, { s with assignments := r.2 })

/-- AssignmentService.delete_assignment. -/
def AssignmentService.delete_assignment (s : Stores) (assignment_id : Nat) :
    Except ServiceError Unit × Stores :=
  let r := s.assignments.delete assignment_id
  if r.1 then (.ok (), { s with assignments := r.2 })
  else (.error (.notFound "Assignment" assignment_id), s)

/-- Store states reachable from the empty stores by the service
operations.  Operations that fail return the stores unchanged, so this
is also the set of states reachable by successful operations only. -/
inductive Reachable : Stores → Prop where
  | empty : Reachable Stores.empty
  | create_driver {s : Stores} (d : Driver) :
      Reachable s → Reachable (DriverService.create_driver s d).2
  | update_driver {s : Stores} (k : Nat) (d : Driver) :
      Reachable s → Reachable (DriverService.update_driver s k d).2
  | delete_driver {s : Stores} (k : Nat) :
      Reachable s → Reachable (DriverService.delete_driver s k).2
  | create_truck {s : Stores} (t : Truck) :
      Reachable s → Reachable (TruckService.create_truck s t).2
  | update_truck {s : Stores} (k : Nat) (t : Truck) :
      Reachable s → Reachable (TruckService.update_truck s k t).2
  | delete_truck {s : Stores} (k : Nat) :
      Reachable s → Reachable (TruckService.delete_truck s k).2
  | create_assignment {s : Stores} (a : Assignment) :
      Reachable s → Reachable (AssignmentService.create_assignment s a).2
  | update_assignment {s : Stores} (k : Nat) (a : Assignment) :
      Reachable s → Reachable (AssignmentService.update_assignment s k a).2
  | delete_assignment {s : Stores} (k : Nat) :
      Reachable s → Reachable (AssignmentService.delete_assignment s k).2

/-- Well-formedness of a repository: every stored entity's id field is
set and equals its key, keys are positive and below the next-id
counter, keys are pairwise distinct, and the counter is at least 1. -/
def RepoWF {α : Type} [EntityId α] (repo : Repository α) : Prop :=
  (∀ p ∈ repo.entries, EntityId.getId p.2 = some p.1 ∧ 1 ≤ p.1 ∧ p.1 < repo.next_id) ∧
  repo.entries.Pairwise (fun p q => p.1 ≠ q.1) ∧
  1 ≤ repo.next_id

/-- Two assignments booking the same driver on the same date. -/
def sameDriverDate (a b : Assignment) : Prop :=
  a.driver_id = b.driver_id ∧ a.assignment_date = b.assignment_date

/-- Two assignments booking the same truck on the same date. -/
def sameTruckDate (a b : Assignment) : Prop :=
  a.truck_id = b.truck_id ∧ a.assignment_date = b.assignment_date

/-- The double-booking invariant: no two stored assignments share a
driver and a date, nor a truck and a date. -/
def AssignUnique (repo : Repository Assignment) : Prop :=
  repo.entries.Pairwise (fun p q => ¬ sameDriverDate p.2 q.2 ∧ ¬ sameTruckDate p.2 q.2)

/-- Joint invariant over the three stores. -/
def StoresWF (s : Stores) : Prop :=
  RepoWF s.drivers ∧ RepoWF s.trucks ∧ RepoWF s.assignments ∧ AssignUnique s.assignments

/-- A sample state used to exercise the theorems on concrete data: one
driver (license D), one truck (minimum license C), and one assignment
binding them on 2025-11-10, all created through the services. -/
def sampleStores : Stores :=
  (AssignmentService.create_assignment
    (TruckService.create_truck
      (DriverService.create_driver Stores.empty
        ⟨none, "Ana", LicenseType.D⟩).2
      ⟨none, "ABC-1234", LicenseType.C⟩).2
    ⟨none, 1, 1, ⟨2025, 11, 10⟩⟩).2

/-! ### Basic lemmas about the dict model -/

theorem dictContains_iff {α : Type} (entries : List (Nat × α)) (k : Nat) :
    dictContains entries k = true ↔ ∃ v, (k, v) ∈ entries := by
  unfold dictContains
  rw [List.any_eq_true]
  constructor
  · rintro ⟨⟨k', v⟩, hmem, hk⟩
    simp only [decide_eq_true_eq] at hk
    subst hk
    exact ⟨v, hmem⟩
  · rintro ⟨v, hv⟩
    exact ⟨(k, v), hv, by simp⟩

theorem dictContains_eq_false {α : Type} {entries : List (Nat × α)} {k : Nat}
    (h : ∀ v, (k, v) ∉ entries) : dictContains entries k = false := by
  cases hc : dictContains entries k
  · rfl
  · rcases (dictContains_iff entries k).1 hc with ⟨v, hv⟩
    exact absurd hv (h v)

theorem dictGet_mem {α : Type} {entries : List (Nat × α)} {k : Nat} {v : α}
    (h : dictGet entries k = some v) : (k, v) ∈ entries := by
  unfold dictGet at h
  rcases Option.map_eq_some'.1 h with ⟨p, hfind, hsnd⟩
  have hmem := List.mem_of_find?_eq_some hfind
  have hkey := List.find?_some hfind
  simp only [decide_eq_true_eq] at hkey
  cases p
  simp_all

theorem find?_filter_of_imp {α : Type} (l : List α) (p q : α → Bool)
    (h : ∀ a, p a = true → q a = true) :
    (l.filter q).find? p = l.find? p := by
  induction l with
  | nil => rfl
  | cons a t ih =>
    cases hq : q a
    · cases hp : p a
      · simp [List.filter_cons, hq, List.find?_cons, hp, ih]
      · exact absurd (h a hp) (by simp [hq])
    · cases hp : p a
      · simp [List.filter_cons, hq, List.find?_cons, hp, ih]
      · simp [List.filter_cons, hq, List.find?_cons, hp]

theorem dictGet_delete_self {α : Type} (entries : List (Nat × α)) (k : Nat) :
    dictGet (dictDelete entries k) k = none := by
  unfold dictGet dictDelete
  rw [Option.map_eq_none', List.find?_eq_none]
  intro p hp
  have hne := List.of_mem_filter hp
  simp only [decide_eq_true_eq] at hne ⊢
  exact hne

theorem dictGet_delete_ne {α : Type} (entries : List (Nat × α)) {k k' : Nat}
    (h : k' ≠ k) :
    dictGet (dictDelete entries k) k' = dictGet entries k' := by
  unfold dictGet dictDelete
  rw [find?_filter_of_imp]
  intro p hp
  simp only [decide_eq_true_eq] at hp ⊢
  omega

theorem dictInsert_fresh {α : Type} {entries : List (Nat × α)} {k : Nat} (v : α)
    (h : dictContains entries k = false) :
    dictInsert entries k v = entries ++ [(k, v)] := by
  unfold dictInsert
  simp [h]

theorem mem_get_all {α : Type} {repo : Repository α} {a : α} :
    a ∈ repo.get_all ↔ ∃ p ∈ repo.entries, p.2 = a := by
  unfold Repository.get_all
  simp [List.mem_map]

/-! ### Lemmas about the availability checks -/

theorem getId_assignment (a : Assignment) : EntityId.getId a = a.id := rfl

theorem getId_driver (d : Driver) : EntityId.getId d = d.id := rfl

theorem getId_truck (t : Truck) : EntityId.getId t = t.id := rfl

theorem setId_assignment (a : Assignment) (k : Nat) :
    EntityId.setId a k = { a with id := some k } := rfl

theorem uniqueRel_symm :
    Symmetric (fun p q : Nat × Assignment =>
      ¬ sameDriverDate p.2 q.2 ∧ ¬ sameTruckDate p.2 q.2) := by
  rintro p q ⟨h1, h2⟩
  constructor
  · rintro ⟨ha, hb⟩
    exact h1 ⟨ha.symm, hb.symm⟩
  · rintro ⟨ha, hb⟩
    exact h2 ⟨ha.symm, hb.symm⟩

theorem find_driver_none_iff (repo : Repository Assignment) (did : Nat)
    (dt : CalendarDate) :
    repo.find_by_driver_and_date did dt = none ↔
      ∀ p ∈ repo.entries, ¬ (p.2.driver_id = did ∧ p.2.assignment_date = dt) := by
  unfold Repository.find_by_driver_and_date
  rw [List.find?_eq_none]
  simp only [decide_eq_true_eq]
  constructor
  · intro h p hp
    exact h p.2 (mem_get_all.2 ⟨p, hp, rfl⟩)
  · intro h a ha
    rcases mem_get_all.1 ha with ⟨p, hp, rfl⟩
    exact h p hp

theorem find_truck_none_iff (repo : Repository Assignment) (tid : Nat)
    (dt : CalendarDate) :
    repo.find_by_truck_and_date tid dt = none ↔
      ∀ p ∈ repo.entries, ¬ (p.2.truck_id = tid ∧ p.2.assignment_date = dt) := by
  unfold Repository.find_by_truck_and_date
  rw [List.find?_eq_none]
  simp only [decide_eq_true_eq]
  constructor
  · intro h p hp
    exact h p.2 (mem_get_all.2 ⟨p, hp, rfl⟩)
  · intro h a ha
    rcases mem_get_all.1 ha with ⟨p, hp, rfl⟩
    exact h p hp

theorem find_driver_some {repo : Repository Assignment} {did : Nat}
    {dt : CalendarDate} {ex : Assignment}
    (h : repo.find_by_driver_and_date did dt = some ex) :
    ex.driver_id = did ∧ ex.assignment_date = dt ∧ ∃ p ∈ repo.entries, p.2 = ex := by
  have h1 := List.find?_some h
  have h2 := List.mem_of_find?_eq_some h
  simp only [decide_eq_true_eq] at h1
  exact ⟨h1.1, h1.2, mem_get_all.1 h2⟩

theorem find_truck_some {repo : Repository Assignment} {tid : Nat}
    {dt : CalendarDate} {ex : Assignment}
    (h : repo.find_by_truck_and_date tid dt = some ex) :
    ex.truck_id = tid ∧ ex.assignment_date = dt ∧ ∃ p ∈ repo.entries, p.2 = ex := by
  have h1 := List.find?_some h
  have h2 := List.mem_of_find?_eq_some h
  simp only [decide_eq_true_eq] at h1
  exact ⟨h1.1, h1.2, mem_get_all.1 h2⟩

theorem check_driver_none_ok_iff {repo : Repository Assignment} {did : Nat}
    {dt : CalendarDate} (hWF : RepoWF repo) :
    AssignmentService.check_driver_availability repo did dt none = .ok () ↔
      ∀ p ∈ repo.entries, ¬ (p.2.driver_id = did ∧ p.2.assignment_date = dt) := by
  unfold AssignmentService.check_driver_availability
  cases hf : repo.find_by_driver_and_date did dt with
  | none =>
    exact iff_of_true rfl ((find_driver_none_iff repo did dt).1 hf)
  | some ex =>
    rcases find_driver_some hf with ⟨hd, hdt, p, hp, hpe⟩
    have hid : ex.id = some p.1 := by
      have := (hWF.1 p hp).1
      rw [getId_assignment] at this
      rw [← hpe]
      exact this
    have hcond : ex.id ≠ (none : Option Nat) := by
      rw [hid]; simp
    dsimp only
    rw [if_pos hcond]
    apply iff_of_false
    · simp
    · intro h
      exact h p hp ⟨by rw [hpe, hd], by rw [hpe, hdt]⟩

theorem check_truck_none_ok_iff {repo : Repository Assignment} {tid : Nat}
    {dt : CalendarDate} (hWF : RepoWF repo) :
    AssignmentService.check_truck_availability repo tid dt none = .ok () ↔
      ∀ p ∈ repo.entries, ¬ (p.2.truck_id = tid ∧ p.2.assignment_date = dt) := by
  unfold AssignmentService.check_truck_availability
  cases hf : repo.find_by_truck_and_date tid dt with
  | none =>
    exact iff_of_true rfl ((find_truck_none_iff repo tid dt).1 hf)
  | some ex =>
    rcases find_truck_some hf with ⟨hd, hdt, p, hp, hpe⟩
    have hid : ex.id = some p.1 := by
      have := (hWF.1 p hp).1
      rw [getId_assignment] at this
      rw [← hpe]
      exact this
    have hcond : ex.id ≠ (none : Option Nat) := by
      rw [hid]; simp
    dsimp only
    rw [if_pos hcond]
    apply iff_of_false
    · simp
    · intro h
      exact h p hp ⟨by rw [hpe, hd], by rw [hpe, hdt]⟩

theorem check_driver_conflict {repo : Repository Assignment} {did : Nat}
    {dt : CalendarDate} (hWF : RepoWF repo)
    (h : ∃ p ∈ repo.entries, p.2.driver_id = did ∧ p.2.assignment_date = dt) :
    ∃ tid, AssignmentService.check_driver_availability repo did dt none =
      .error (.driverConflict did tid dt) := by
  cases hf : repo.find_by_driver_and_date did dt with
  | none =>
    rcases h with ⟨p, hp, hm⟩
    exact absurd hm ((find_driver_none_iff repo did dt).1 hf p hp)
  | some ex =>
    rcases find_driver_some hf with ⟨_, _, p, hp, hpe⟩
    have hid : ex.id = some p.1 := by
      have := (hWF.1 p hp).1
      rw [getId_assignment] at this
      rw [← hpe]
      exact this
    have hcond : ex.id ≠ (none : Option Nat) := by
      rw [hid]; simp
    refine ⟨ex.truck_id, ?_⟩
    unfold AssignmentService.check_driver_availability
    rw [hf]
    dsimp only
    rw [if_pos hcond]

theorem check_truck_conflict {repo : Repository Assignment} {tid : Nat}
    {dt : CalendarDate} (hWF : RepoWF repo)
    (h : ∃ p ∈ repo.entries, p.2.truck_id = tid ∧ p.2.assignment_date = dt) :
    ∃ did, AssignmentService.check_truck_availability repo tid dt none =
      .error (.truckConflict tid did dt) := by
  cases hf : repo.find_by_truck_and_date tid dt with
  | none =>
    rcases h with ⟨p, hp, hm⟩
    exact absurd hm ((find_truck_none_iff repo tid dt).1 hf p hp)
  | some ex =>
    rcases find_truck_some hf with ⟨_, _, p, hp, hpe⟩
    have hid : ex.id = some p.1 := by
      have := (hWF.1 p hp).1
      rw [getId_assignment] at this
      rw [← hpe]
      exact this
    have hcond : ex.id ≠ (none : Option Nat) := by
      rw [hid]; simp
    refine ⟨ex.driver_id, ?_⟩
    unfold AssignmentService.check_truck_availability
    rw [hf]
    dsimp only
    rw [if_pos hcond]

theorem check_driver_excl_no_other {repo : Repository Assignment} {did : Nat}
    {dt : CalendarDate} {k : Nat} (hWF : RepoWF repo) (hU : AssignUnique repo)
    (hok : AssignmentService.check_driver_availability repo did dt (some k) = .ok ()) :
    ∀ p ∈ repo.entries, p.1 ≠ k →
      ¬ (p.2.driver_id = did ∧ p.2.assignment_date = dt) := by
  intro p hp hpk hmatch
  cases hf : repo.find_by_driver_and_date did dt with
  | none =>
    exact (find_driver_none_iff repo did dt).1 hf p hp hmatch
  | some ex =>
    unfold AssignmentService.check_driver_availability at hok
    rw [hf] at hok
    dsimp only at hok
    by_cases hcond : ex.id ≠ some k
    · rw [if_pos hcond] at hok
      exact absurd hok (by simp)
    · push_neg at hcond
      rcases find_driver_some hf with ⟨hd, hdt, q, hq, hqe⟩
      have hq1 : q.1 = k := by
        have hgi := (hWF.1 q hq).1
        rw [getId_assignment, hqe, hcond] at hgi
        exact (Option.some_injective _ hgi).symm
      have hpq : p ≠ q := fun he => hpk (by rw [he, hq1])
      have hrel := List.Pairwise.forall uniqueRel_symm hU hp hq hpq
      apply hrel.1
      exact ⟨by rw [hmatch.1, hqe, hd], by rw [hmatch.2, hqe, hdt]⟩

theorem check_truck_excl_no_other {repo : Repository Assignment} {tid : Nat}
    {dt : CalendarDate} {k : Nat} (hWF : RepoWF repo) (hU : AssignUnique repo)
    (hok : AssignmentService.check_truck_availability repo tid dt (some k) = .ok ()) :
    ∀ p ∈ repo.entries, p.1 ≠ k →
      ¬ (p.2.truck_id = tid ∧ p.2.assignment_date = dt) := by
  intro p hp hpk hmatch
  cases hf : repo.find_by_truck_and_date tid dt with
  | none =>
    exact (find_truck_none_iff repo tid dt).1 hf p hp hmatch
  | some ex =>
    unfold AssignmentService.check_truck_availability at hok
    rw [hf] at hok
    dsimp only at hok
    by_cases hcond : ex.id ≠ some k
    · rw [if_pos hcond] at hok
      exact absurd hok (by simp)
    · push_neg at hcond
      rcases find_truck_some hf with ⟨hd, hdt, q, hq, hqe⟩
      have hq1 : q.1 = k := by
        have hgi := (hWF.1 q hq).1
        rw [getId_assignment, hqe, hcond] at hgi
        exact (Option.some_injective _ hgi).symm
      have hpq : p ≠ q := fun he => hpk (by rw [he, hq1])
      have hrel := List.Pairwise.forall uniqueRel_symm hU hp hq hpq
      apply hrel.2
      exact ⟨by rw [hmatch.1, hqe, hd], by rw [hmatch.2, hqe, hdt]⟩

theorem check_driver_excl_self_ok {repo : Repository Assignment} {did : Nat}
    {dt : CalendarDate} {k : Nat} {stored : Assignment}
    (hWF : RepoWF repo) (hU : AssignUnique repo)
    (hmem : (k, stored) ∈ repo.entries)
    (hd : stored.driver_id = did) (hdt : stored.assignment_date = dt) :
    AssignmentService.check_driver_availability repo did dt (some k) = .ok () := by
  cases hf : repo.find_by_driver_and_date did dt with
  | none =>
    unfold AssignmentService.check_driver_availability
    rw [hf]
  | some ex =>
    rcases find_driver_some hf with ⟨hed, hedt, q, hq, hqe⟩
    by_cases hq1 : q.1 = k
    · have hid : ex.id = some k := by
        have hgi := (hWF.1 q hq).1
        rw [getId_assignment, hqe, hq1] at hgi
        exact hgi
      unfold AssignmentService.check_driver_availability
      rw [hf]
      dsimp only
      rw [if_neg (by simp [hid])]
    · exfalso
      have hne : (k, stored) ≠ q := fun he => hq1 (by rw [← he])
      have hrel := List.Pairwise.forall uniqueRel_symm hU hmem hq hne
      apply hrel.1
      exact ⟨by rw [hd, hqe, hed], by rw [hdt, hqe, hedt]⟩

theorem check_truck_excl_self_ok {repo : Repository Assignment} {tid : Nat}
    {dt : CalendarDate} {k : Nat} {stored : Assignment}
    (hWF : RepoWF repo) (hU : AssignUnique repo)
    (hmem : (k, stored) ∈ repo.entries)
    (ht : stored.truck_id = tid) (hdt : stored.assignment_date = dt) :
    AssignmentService.check_truck_availability repo tid dt (some k) = .ok () := by
  cases hf : repo.find_by_truck_and_date tid dt with
  | none =>
    unfold AssignmentService.check_truck_availability
    rw [hf]
  | some ex =>
    rcases find_truck_some hf with ⟨hed, hedt, q, hq, hqe⟩
    by_cases hq1 : q.1 = k
    · have hid : ex.id = some k := by
        have hgi := (hWF.1 q hq).1
        rw [getId_assignment, hqe, hq1] at hgi
        exact hgi
      unfold AssignmentService.check_truck_availability
      rw [hf]
      dsimp only
      rw [if_neg (by simp [hid])]
    · exfalso
      have hne : (k, stored) ≠ q := fun he => hq1 (by rw [← he])
      have hrel := List.Pairwise.forall uniqueRel_symm hU hmem hq hne
      apply hrel.2
      exact ⟨by rw [ht, hqe, hed], by rw [hdt, hqe, hedt]⟩

/-! ### Preservation of repository well-formedness -/

theorem repo_create_entries {α : Type} [EntityId α] {repo : Repository α} (e : α)
    (hWF : RepoWF repo) :
    (repo.create e).2.entries
        = repo.entries ++ [(repo.next_id, EntityId.setId e repo.next_id)] ∧
      (repo.create e).2.next_id = repo.next_id + 1 := by
  have hfresh : dictContains repo.entries repo.next_id = false := by
    apply dictContains_eq_false
    intro v hv
    have := (hWF.1 (repo.next_id, v) hv).2.2
    omega
  unfold Repository.create
  exact ⟨dictInsert_fresh _ hfresh, rfl⟩

theorem repoWF_create {α : Type} [EntityId α] {repo : Repository α} (e : α)
    (hWF : RepoWF repo) : RepoWF (repo.create e).2 := by
  obtain ⟨hent, hnext⟩ := repo_create_entries e hWF
  refine ⟨?_, ?_, ?_⟩
  · intro p hp
    rw [hent] at hp
    rw [hnext]
    rcases List.mem_append.1 hp with hp | hp
    · obtain ⟨h1, h2, h3⟩ := hWF.1 p hp
      exact ⟨h1, h2, by omega⟩
    · simp only [List.mem_singleton] at hp
      subst hp
      exact ⟨EntityId.getId_setId e repo.next_id, hWF.2.2, by omega⟩
  · rw [hent, List.pairwise_append]
    refine ⟨hWF.2.1, List.pairwise_singleton _ _, ?_⟩
    intro p hp q hq
    simp only [List.mem_singleton] at hq
    subst hq
    have := (hWF.1 p hp).2.2
    intro hcontr
    omega
  · rw [hnext]
    omega

theorem repoWF_update {α : Type} [EntityId α] {repo : Repository α} (k : Nat) (e : α)
    (hWF : RepoWF repo) : RepoWF (repo.update k e).2 := by
  unfold Repository.update
  cases hc : dictContains repo.entries k with
  | false =>
    simp only [hc, Bool.false_eq_true, if_false]
    exact hWF
  | true =>
    simp only [hc, if_true]
    obtain ⟨v, hv⟩ := (dictContains_iff _ _).1 hc
    obtain ⟨_, hk1, hk2⟩ := hWF.1 (k, v) hv
    unfold dictInsert
    simp only [hc, if_true]
    refine ⟨?_, ?_, hWF.2.2⟩
    · intro p hp
      rcases List.mem_map.1 hp with ⟨q, hq, rfl⟩
      by_cases hqk : q.1 = k
      · simp only [hqk, if_true]
        exact ⟨EntityId.getId_setId e k, hk1, hk2⟩
      · simp only [hqk, if_false]
        exact hWF.1 q hq
    · rw [List.pairwise_map]
      apply hWF.2.1.imp
      intro p q hpq
      by_cases hpk : p.1 = k <;> by_cases hqk : q.1 = k <;>
        simp_all

theorem repoWF_delete {α : Type} [EntityId α] {repo : Repository α} (k : Nat)
    (hWF : RepoWF repo) : RepoWF (repo.delete k).2 := by
  unfold Repository.delete
  cases hc : dictContains repo.entries k with
  | false =>
    simp only [hc, Bool.false_eq_true, if_false]
    exact hWF
  | true =>
    simp only [hc, if_true]
    refine ⟨?_, ?_, hWF.2.2⟩
    · intro p hp
      exact hWF.1 p (List.mem_of_mem_filter hp)
    · exact hWF.2.1.filter _

theorem assignUnique_delete {repo : Repository Assignment} (k : Nat)
    (hU : AssignUnique repo) : AssignUnique (repo.delete k).2 := by
  unfold Repository.delete
  cases hc : dictContains repo.entries k with
  | false =>
    simp only [hc, Bool.false_eq_true, if_false]
    exact hU
  | true =>
    simp only [hc, if_true]
    exact hU.filter _

theorem assignUnique_create {repo : Repository Assignment} {a : Assignment}
    (hWF : RepoWF repo) (hU : AssignUnique repo)
    (hd : AssignmentService.check_driver_availability
        repo a.driver_id a.assignment_date none = .ok ())
    (ht : AssignmentService.check_truck_availability
        repo a.truck_id a.assignment_date none = .ok ()) :
    AssignUnique (repo.create a).2 := by
  obtain ⟨hent, _⟩ := repo_create_entries a hWF
  unfold AssignUnique
  rw [hent, List.pairwise_append]
  refine ⟨hU, List.pairwise_singleton _ _, ?_⟩
  intro p hp q hq
  simp only [List.mem_singleton] at hq
  subst hq
  have hnd := (check_driver_none_ok_iff hWF).1 hd p hp
  have hnt := (check_truck_none_ok_iff hWF).1 ht p hp
  constructor
  · rintro ⟨h1, h2⟩
    exact hnd ⟨h1, h2⟩
  · rintro ⟨h1, h2⟩
    exact hnt ⟨h1, h2⟩

theorem assignUnique_update {repo : Repository Assignment} {k : Nat} {a : Assignment}
    (hWF : RepoWF repo) (hU : AssignUnique repo)
    (hd : AssignmentService.check_driver_availability
        repo a.driver_id a.assignment_date (some k) = .ok ())
    (ht : AssignmentService.check_truck_availability
        repo a.truck_id a.assignment_date (some k) = .ok ()) :
    AssignUnique (repo.update k a).2 := by
  unfold Repository.update
  cases hc : dictContains repo.entries k with
  | false =>
    simp only [hc, Bool.false_eq_true, if_false]
    exact hU
  | true =>
    simp only [hc, if_true]
    have hnoD := check_driver_excl_no_other hWF hU hd
    have hnoT := check_truck_excl_no_other hWF hU ht
    unfold AssignUnique dictInsert
    simp only [hc, if_true]
    rw [List.pairwise_map]
    apply List.Pairwise.imp_of_mem ?_ (hU.and hWF.2.1)
    intro p q hp hq hpq
    obtain ⟨⟨hRd, hRt⟩, hne⟩ := hpq
    by_cases hpk : p.1 = k <;> by_cases hqk : q.1 = k
    · exact absurd (hpk.trans hqk.symm) hne
    · rw [if_pos hpk, if_neg hqk]
      constructor
      · rintro ⟨h1, h2⟩
        exact hnoD q hq hqk ⟨h1.symm, h2.symm⟩
      · rintro ⟨h1, h2⟩
        exact hnoT q hq hqk ⟨h1.symm, h2.symm⟩
    · rw [if_neg hpk, if_pos hqk]
      constructor
      · rintro ⟨h1, h2⟩
        exact hnoD p hp hpk ⟨h1, h2⟩
      · rintro ⟨h1, h2⟩
        exact hnoT p hp hpk ⟨h1, h2⟩
    · rw [if_neg hpk, if_neg hqk]
      exact ⟨hRd, hRt⟩

/-! ### Preservation of the joint invariant by the service operations -/

theorem storesWF_empty : StoresWF Stores.empty := by
  refine ⟨⟨?_, ?_, ?_⟩, ⟨?_, ?_, ?_⟩, ⟨?_, ?_, ?_⟩, ?_⟩ <;>
    simp [Stores.empty, Repository.empty, AssignUnique]

theorem storesWF_create_driver (s : Stores) (d : Driver) (h : StoresWF s) :
    StoresWF (DriverService.create_driver s d).2 := by
  unfold DriverService.create_driver
  exact ⟨repoWF_create d h.1, h.2.1, h.2.2.1, h.2.2.2⟩

theorem storesWF_update_driver (s : Stores) (k : Nat) (d : Driver) (h : StoresWF s) :
    StoresWF (DriverService.update_driver s k d).2 := by
  unfold DriverService.update_driver
  dsimp only
  cases hu : (s.drivers.update k d).1 with
  | none => exact h
  | some updated => exact ⟨repoWF_update k d h.1, h.2.1, h.2.2.1, h.2.2.2⟩

theorem storesWF_delete_driver (s : Stores) (k : Nat) (h : StoresWF s) :
    StoresWF (DriverService.delete_driver s k).2 := by
  unfold DriverService.delete_driver
  dsimp only
  cases hb : (s.drivers.delete k).1 with
  | false =>
    simp only [hb, Bool.false_eq_true, if_false]
    exact h
  | true =>
    simp only [hb, if_true]
    exact ⟨repoWF_delete k h.1, h.2.1, h.2.2.1, h.2.2.2⟩

theorem storesWF_create_truck (s : Stores) (t : Truck) (h : StoresWF s) :
    StoresWF (TruckService.create_truck s t).2 := by
  unfold TruckService.create_truck
  exact ⟨h.1, repoWF_create t h.2.1, h.2.2.1, h.2.2.2⟩

theorem storesWF_update_truck (s : Stores) (k : Nat) (t : Truck) (h : StoresWF s) :
    StoresWF (TruckService.update_truck s k t).2 := by
  unfold TruckService.update_truck
  dsimp only
  cases hu : (s.trucks.update k t).1 with
  | none => exact h
  | some updated => exact ⟨h.1, repoWF_update k t h.2.1, h.2.2.1, h.2.2.2⟩

theorem storesWF_delete_truck (s : Stores) (k : Nat) (h : StoresWF s) :
    StoresWF (TruckService.delete_truck s k).2 := by
  unfold TruckService.delete_truck
  dsimp only
  cases hb : (s.trucks.delete k).1 with
  | false =>
    simp only [hb, Bool.false_eq_true, if_false]
    exact h
  | true =>
    simp only [hb, if_true]
    exact ⟨h.1, repoWF_delete k h.2.1, h.2.2.1, h.2.2.2⟩

theorem storesWF_create_assignment (s : Stores) (a : Assignment) (h : StoresWF s) :
    StoresWF (AssignmentService.create_assignment s a).2 := by
  unfold AssignmentService.create_assignment
  cases hd : s.drivers.get_by_id a.driver_id with
  | none => exact h
  | some driver =>
  dsimp only
  cases htk : s.trucks.get_by_id a.truck_id with
  | none => exact h
  | some truck =>
  dsimp only
  cases hv : AssignmentService.validate_license_compatibility
      driver.license_type truck.minimum_license_type with
  | error e => exact h
  | ok u1 =>
  cases u1
  dsimp only
  cases hcd : AssignmentService.check_driver_availability
      s.assignments a.driver_id a.assignment_date none with
  | error e => exact h
  | ok u2 =>
  cases u2
  dsimp only
  cases hct : AssignmentService.check_truck_availability
      s.assignments a.truck_id a.assignment_date none with
  | error e => exact h
  | ok u3 =>
  cases u3
  dsimp only
  exact ⟨h.1, h.2.1, repoWF_create a h.2.2.1,
    assignUnique_create h.2.2.1 h.2.2.2 hcd hct⟩

theorem storesWF_update_assignment (s : Stores) (k : Nat) (a : Assignment)
    (h : StoresWF s) :
    StoresWF (AssignmentService.update_assignment s k a).2 := by
  unfold AssignmentService.update_assignment
  cases hex : s.assignments.get_by_id k with
  | none => exact h
  | some old =>
  dsimp only
  cases hd : s.drivers.get_by_id a.driver_id with
  | none => exact h
  | some driver =>
  dsimp only
  cases htk : s.trucks.get_by_id a.truck_id with
  | none => exact h
  | some truck =>
  dsimp only
  cases hv : AssignmentService.validate_license_compatibility
      driver.license_type truck.minimum_license_type with
  | error e => exact h
  | ok u1 =>
  cases u1
  dsimp only
  cases hcd : AssignmentService.check_driver_availability
      s.assignments a.driver_id a.assignment_date (some k) with
  | error e => exact h
  | ok u2 =>
  cases u2
  dsimp only
  cases hct : AssignmentService.check_truck_availability
      s.assignments a.truck_id a.assignment_date (some k) with
  | error e => exact h
  | ok u3 =>
  cases u3
  dsimp only
  cases hu : (s.assignments.update k a).1 with
  | none => exact h
  | some updated =>
    exact ⟨h.1, h.2.1, repoWF_update k a h.2.2.1,
      assignUnique_update h.2.2.1 h.2.2.2 hcd hct⟩

theorem storesWF_delete_assignment (s : Stores) (k : Nat) (h : StoresWF s) :
    StoresWF (AssignmentService.delete_assignment s k).2 := by
  unfold AssignmentService.delete_assignment
  dsimp only
  cases hb : (s.assignments.delete k).1 with
  | false =>
    simp only [hb, Bool.false_eq_true, if_false]
    exact h
  | true =>
    simp only [hb, if_true]
    exact ⟨h.1, h.2.1, repoWF_delete k h.2.2.1, assignUnique_delete k h.2.2.2⟩

/-- Every reachable store state satisfies the joint invariant. -/
theorem reachable_storesWF {s : Stores} (h : Reachable s) : StoresWF s := by
  induction h with
  | empty => exact storesWF_empty
  | create_driver d _ ih => exact storesWF_create_driver _ d ih
  | update_driver k d _ ih => exact storesWF_update_driver _ k d ih
  | delete_driver k _ ih => exact storesWF_delete_driver _ k ih
  | create_truck t _ ih => exact storesWF_create_truck _ t ih
  | update_truck k t _ ih => exact storesWF_update_truck _ k t ih
  | delete_truck k _ ih => exact storesWF_delete_truck _ k ih
  | create_assignment a _ ih => exact storesWF_create_assignment _ a ih
  | update_assignment k a _ ih => exact storesWF_update_assignment _ k a ih
  | delete_assignment k _ ih => exact storesWF_delete_assignment _ k ih

/-! ### Branch equations for the assignment service -/

theorem validate_ok_iff (dl rl : LicenseType) :
    AssignmentService.validate_license_compatibility dl rl = .ok ()
      ↔ dl.can_operate rl = true := by
  unfold AssignmentService.validate_license_compatibility
  cases h : dl.can_operate rl <;> simp [h]

theorem validate_error_iff (dl rl : LicenseType) :
    AssignmentService.validate_license_compatibility dl rl
        = .error (.licenseValidation dl rl)
      ↔ dl.can_operate rl = false := by
  unfold AssignmentService.validate_license_compatibility
  cases h : dl.can_operate rl <;> simp [h]

theorem create_assignment_eq_noDriver {s : Stores} {a : Assignment}
    (hd : s.drivers.get_by_id a.driver_id = none) :
    AssignmentService.create_assignment s a
      = (.error (.notFound "Driver" a.driver_id), s) := by
  unfold AssignmentService.create_assignment
  rw [hd]

theorem create_assignment_eq_noTruck {s : Stores} {a : Assignment} {driver : Driver}
    (hd : s.drivers.get_by_id a.driver_id = some driver)
    (ht : s.trucks.get_by_id a.truck_id = none) :
    AssignmentService.create_assignment s a
      = (.error (.notFound "Truck" a.truck_id), s) := by
  unfold AssignmentService.create_assignment
  rw [hd]
  dsimp only
  rw [ht]

theorem create_assignment_eq_badLicense {s : Stores} {a : Assignment}
    {driver : Driver} {truck : Truck}
    (hd : s.drivers.get_by_id a.driver_id = some driver)
    (ht : s.trucks.get_by_id a.truck_id = some truck)
    (hl : driver.license_type.can_operate truck.minimum_license_type = false) :
    AssignmentService.create_assignment s a
      = (.error (.licenseValidation driver.license_type truck.minimum_license_type), s) := by
  unfold AssignmentService.create_assignment
  rw [hd]
  dsimp only
  rw [ht]
  dsimp only
  rw [(validate_error_iff _ _).2 hl]

theorem create_assignment_eq_driverConflict {s : Stores} {a : Assignment}
    {driver : Driver} {truck : Truck} {e : ServiceError}
    (hd : s.drivers.get_by_id a.driver_id = some driver)
    (ht : s.trucks.get_by_id a.truck_id = some truck)
    (hl : driver.license_type.can_operate truck.minimum_license_type = true)
    (hcd : AssignmentService.check_driver_availability
        s.assignments a.driver_id a.assignment_date none = .error e) :
    AssignmentService.create_assignment s a = (.error e, s) := by
  unfold AssignmentService.create_assignment
  rw [hd]
  dsimp only
  rw [ht]
  dsimp only
  rw [(validate_ok_iff _ _).2 hl]
  dsimp only
  rw [hcd]

theorem create_assignment_eq_truckConflict {s : Stores} {a : Assignment}
    {driver : Driver} {truck : Truck} {e : ServiceError}
    (hd : s.drivers.get_by_id a.driver_id = some driver)
    (ht : s.trucks.get_by_id a.truck_id = some truck)
    (hl : driver.license_type.can_operate truck.minimum_license_type = true)
    (hcd : AssignmentService.check_driver_availability
        s.assignments a.driver_id a.assignment_date none = .ok ())
    (hct : AssignmentService.check_truck_availability
        s.assignments a.truck_id a.assignment_date none = .error e) :
    AssignmentService.create_assignment s a = (.error e, s) := by
  unfold AssignmentService.create_assignment
  rw [hd]
  dsimp only
  rw [ht]
  dsimp only
  rw [(validate_ok_iff _ _).2 hl]
  dsimp only
  rw [hcd]
  dsimp only
  rw [hct]

theorem create_assignment_eq_ok {s : Stores} {a : Assignment}
    {driver : Driver} {truck : Truck}
    (hd : s.drivers.get_by_id a.driver_id = some driver)
    (ht : s.trucks.get_by_id a.truck_id = some truck)
    (hl : driver.license_type.can_operate truck.minimum_license_type = true)
    (hcd : AssignmentService.check_driver_availability
        s.assignments a.driver_id a.assignment_date none = .ok ())
    (hct : AssignmentService.check_truck_availability
        s.assignments a.truck_id a.assignment_date none = .ok ()) :
    AssignmentService.create_assignment s a
      = (.ok (s.assignments.create a).1, { s with assignments := (s.assignments.create a).2 }) := by
  unfold AssignmentService.create_assignment
  rw [hd]
  dsimp only
  rw [ht]
  dsimp only
  rw [(validate_ok_iff _ _).2 hl]
  dsimp only
  rw [hcd]
  dsimp only
  rw [hct]

theorem update_assignment_eq_noAssignment {s : Stores} {k : Nat} {a : Assignment}
    (hex : s.assignments.get_by_id k = none) :
    AssignmentService.update_assignment s k a
      = (.error (.notFound "Assignment" k), s) := by
  unfold AssignmentService.update_assignment
  rw [hex]

theorem update_assignment_eq_ok {s : Stores} {k : Nat} {a : Assignment}
    {old : Assignment} {driver : Driver} {truck : Truck}
    (hex : s.assignments.get_by_id k = some old)
    (hd : s.drivers.get_by_id a.driver_id = some driver)
    (ht : s.trucks.get_by_id a.truck_id = some truck)
    (hl : driver.license_type.can_operate truck.minimum_license_type = true)
    (hcd : AssignmentService.check_driver_availability
        s.assignments a.driver_id a.assignment_date (some k) = .ok ())
    (hct : AssignmentService.check_truck_availability
        s.assignments a.truck_id a.assignment_date (some k) = .ok ()) :
    AssignmentService.update_assignment s k a
      = (.ok (EntityId.setId a k),
          { s with assignments := (s.assignments.update k a).2 }) := by
  have hc : dictContains s.assignments.entries k = true := by
    rw [dictContains_iff]
    exact ⟨old, dictGet_mem hex⟩
  unfold AssignmentService.update_assignment
  rw [hex]
  dsimp only
  rw [hd]
  dsimp only
  rw [ht]
  dsimp only
  rw [(validate_ok_iff _ _).2 hl]
  dsimp only
  rw [hcd]
  dsimp only
  rw [hct]
  dsimp only
  unfold Repository.update
  rw [hc]
  simp

/-! ### Further helper lemmas -/

theorem sampleStores_reachable : Reachable sampleStores :=
  Reachable.create_assignment _
    (Reachable.create_truck _
      (Reachable.create_driver _ Reachable.empty))

theorem countP_le_one_of_pairwise {α : Type} {R : α → α → Prop} {p : α → Bool}
    {l : List α} (hl : l.Pairwise R)
    (h : ∀ a b, p a = true → p b = true → R a b → False) :
    l.countP p ≤ 1 := by
  induction l with
  | nil => simp
  | cons x t ih =>
    rw [List.countP_cons]
    cases hx : p x
    · simp only [hx, Bool.false_eq_true, if_false]
      have := ih hl.of_cons
      omega
    · have hzero : t.countP p = 0 := by
        rw [List.countP_eq_zero]
        intro b hb hpb
        exact h x b hx hpb (List.rel_of_pairwise_cons hl hb)
      simp [hx, hzero]

theorem check_driver_error_shape {repo : Repository Assignment} {did : Nat}
    {dt : CalendarDate} {excl : Option Nat} {e : ServiceError}
    (h : AssignmentService.check_driver_availability repo did dt excl = .error e) :
    ∃ p ∈ repo.entries, p.2.driver_id = did ∧ p.2.assignment_date = dt ∧
      e = .driverConflict did p.2.truck_id dt := by
  unfold AssignmentService.check_driver_availability at h
  cases hf : repo.find_by_driver_and_date did dt with
  | none =>
    rw [hf] at h
    exact absurd h (by simp)
  | some ex =>
    rw [hf] at h
    dsimp only at h
    by_cases hc : ex.id ≠ excl
    · rw [if_pos hc] at h
      rcases find_driver_some hf with ⟨hd, hdt, p, hp, hpe⟩
      refine ⟨p, hp, by rw [hpe]; exact hd, by rw [hpe]; exact hdt, ?_⟩
      rw [hpe]
      exact (Except.error.inj h).symm
    · rw [if_neg hc] at h
      exact absurd h (by simp)

theorem check_truck_error_shape {repo : Repository Assignment} {tid : Nat}
    {dt : CalendarDate} {excl : Option Nat} {e : ServiceError}
    (h : AssignmentService.check_truck_availability repo tid dt excl = .error e) :
    ∃ p ∈ repo.entries, p.2.truck_id = tid ∧ p.2.assignment_date = dt ∧
      e = .truckConflict tid p.2.driver_id dt := by
  unfold AssignmentService.check_truck_availability at h
  cases hf : repo.find_by_truck_and_date tid dt with
  | none =>
    rw [hf] at h
    exact absurd h (by simp)
  | some ex =>
    rw [hf] at h
    dsimp only at h
    by_cases hc : ex.id ≠ excl
    · rw [if_pos hc] at h
      rcases find_truck_some hf with ⟨hd, hdt, p, hp, hpe⟩
      refine ⟨p, hp, by rw [hpe]; exact hd, by rw [hpe]; exact hdt, ?_⟩
      rw [hpe]
      exact (Except.error.inj h).symm
    · rw [if_neg hc] at h
      exact absurd h (by simp)

theorem create_assignment_error_frame (s : Stores) (a : Assignment)
    (e : ServiceError)
    (h : (AssignmentService.create_assignment s a).1 = .error e) :
    (AssignmentService.create_assignment s a).2 = s := by
  unfold AssignmentService.create_assignment at h ⊢
  cases hd : s.drivers.get_by_id a.driver_id with
  | none => rfl
  | some driver =>
  rw [hd] at h
  dsimp only at h ⊢
  cases ht : s.trucks.get_by_id a.truck_id with
  | none => rfl
  | some truck =>
  rw [ht] at h
  dsimp only at h ⊢
  cases hv : AssignmentService.validate_license_compatibility
      driver.license_type truck.minimum_license_type with
  | error e2 => rfl
  | ok u =>
  cases u
  rw [hv] at h
  dsimp only at h ⊢
  cases hcd : AssignmentService.check_driver_availability
      s.assignments a.driver_id a.assignment_date none with
  | error e2 => rfl
  | ok u2 =>
  cases u2
  rw [hcd] at h
  dsimp only at h ⊢
  cases hct : AssignmentService.check_truck_availability
      s.assignments a.truck_id a.assignment_date none with
  | error e2 => rfl
  | ok u3 =>
  cases u3
  rw [hct] at h
  exact absurd h (by simp)

theorem update_assignment_error_frame (s : Stores) (k : Nat) (a : Assignment)
    (e : ServiceError)
    (h : (AssignmentService.update_assignment s k a).1 = .error e) :
    (AssignmentService.update_assignment s k a).2 = s := by
  unfold AssignmentService.update_assignment at h ⊢
  cases hex : s.assignments.get_by_id k with
  | none => rfl
  | some old =>
  rw [hex] at h
  dsimp only at h ⊢
  cases hd : s.drivers.get_by_id a.driver_id with
  | none => rfl
  | some driver =>
  rw [hd] at h
  dsimp only at h ⊢
  cases ht : s.trucks.get_by_id a.truck_id with
  | none => rfl
  | some truck =>
  rw [ht] at h
  dsimp only at h ⊢
  cases hv : AssignmentService.validate_license_compatibility
      driver.license_type truck.minimum_license_type with
  | error e2 => rfl
  | ok u =>
  cases u
  rw [hv] at h
  dsimp only at h ⊢
  cases hcd : AssignmentService.check_driver_availability
      s.assignments a.driver_id a.assignment_date (some k) with
  | error e2 => rfl
  | ok u2 =>
  cases u2
  rw [hcd] at h
  dsimp only at h ⊢
  cases hct : AssignmentService.check_truck_availability
      s.assignments a.truck_id a.assignment_date (some k) with
  | error e2 => rfl
  | ok u3 =>
  cases u3
  rw [hct] at h
  dsimp only at h ⊢
  cases hu : (s.assignments.update k a).1 with
  | none => rfl
  | some updated =>
  rw [hu] at h
  exact absurd h (by simp)

theorem repo_delete_next_id {α : Type} (repo : Repository α) (k : Nat) :
    (repo.delete k).2.next_id = repo.next_id := by
  unfold Repository.delete
  cases hc : dictContains repo.entries k <;> simp [hc]

theorem repo_update_next_id {α : Type} [EntityId α] (repo : Repository α)
    (k : Nat) (e : α) :
    (repo.update k e).2.next_id = repo.next_id := by
  unfold Repository.update
  cases hc : dictContains repo.entries k <;> simp [hc]

theorem repo_delete_of_true {α : Type} {repo : Repository α} {k : Nat}
    (h : (repo.delete k).1 = true) :
    (repo.delete k).2 = ⟨dictDelete repo.entries k, repo.next_id⟩ := by
  unfold Repository.delete at h ⊢
  cases hc : dictContains repo.entries k
  · rw [hc] at h
    exact absurd h (by simp)
  · simp [hc]

theorem dictContains_delete_self {α : Type} (entries : List (Nat × α)) (k : Nat) :
    dictContains (dictDelete entries k) k = false := by
  apply dictContains_eq_false
  intro v hv
  have := List.of_mem_filter hv
  simp at this

/-! ### Claim theorems -/

/-- C4: for all license categories x and y, can_operate(x, y) returns true
iff rank(x) ≥ rank(y) under the fixed total order A=1, B=2, C=3, D=4,
E=5; the function is a total Lean function on the closed enumeration, so
it never fails on these inputs. -/
theorem can_operate_iff_rank :
    (LicenseType.get_license_hierarchy .A = 1 ∧
     LicenseType.get_license_hierarchy .B = 2 ∧
     LicenseType.get_license_hierarchy .C = 3 ∧
     LicenseType.get_license_hierarchy .D = 4 ∧
     LicenseType.get_license_hierarchy .E = 5) ∧
    ∀ x y : LicenseType,
      x.can_operate y = true ↔
        x.get_license_hierarchy ≥ y.get_license_hierarchy := by
  refine ⟨⟨rfl, rfl, rfl, rfl, rfl⟩, ?_⟩
  intro x y
  cases x <;> cases y <;> decide

/-- C5: compatibleSet(held) is exactly the set of categories whose rank
is at most held's rank, inclusive of held itself; in particular
compatibleSet(C) = {A,B,C}, compatibleSet(E) = {A,B,C,D,E} and
compatibleSet(A) = {A}. -/
theorem compatible_set_spec :
    (∀ held t : LicenseType,
        t ∈ held.get_compatible_licenses ↔
          t.get_license_hierarchy ≤ held.get_license_hierarchy) ∧
    LicenseType.C.get_compatible_licenses
        = {LicenseType.A, LicenseType.B, LicenseType.C} ∧
    LicenseType.E.get_compatible_licenses
        = {LicenseType.A, LicenseType.B, LicenseType.C,
           LicenseType.D, LicenseType.E} ∧
    LicenseType.A.get_compatible_licenses = {LicenseType.A} := by
  refine ⟨?_, by decide, by decide, by decide⟩
  intro held t
  cases held <;> cases t <;> decide

/-- C6: in each of the three entity stores, create assigns the current
next-id (so ids are 1, 2, 3, ... across the sequence of creates, since
the counter starts at 1, create increments it and delete/update leave it
unchanged), and an id is never reused after a deletion: creating A from
the empty store (id 1), deleting it and creating B gives B the id 2,
not 1. -/
theorem ids_sequential_never_reused :
    (∀ (repo : Repository Driver) (d : Driver),
        (repo.create d).1.id = some repo.next_id ∧
        (repo.create d).2.next_id = repo.next_id + 1) ∧
    (∀ (repo : Repository Driver) (k : Nat) (d : Driver),
        (repo.delete k).2.next_id = repo.next_id ∧
        (repo.update k d).2.next_id = repo.next_id) ∧
    (∀ dA dB : Driver,
        (Repository.empty.create dA).1.id = some 1 ∧
        ((((Repository.empty.create dA).2.delete 1).2.create dB).1.id = some 2) ∧
        ((((Repository.empty.create dA).2.delete 1).2.create dB).1.id ≠ some 1)) ∧
    (∀ (repo : Repository Truck) (t : Truck),
        (repo.create t).1.id = some repo.next_id ∧
        (repo.create t).2.next_id = repo.next_id + 1) ∧
    (∀ (repo : Repository Truck) (k : Nat) (t : Truck),
        (repo.delete k).2.next_id = repo.next_id ∧
        (repo.update k t).2.next_id = repo.next_id) ∧
    (∀ tA tB : Truck,
        (Repository.empty.create tA).1.id = some 1 ∧
        ((((Repository.empty.create tA).2.delete 1).2.create tB).1.id = some 2) ∧
        ((((Repository.empty.create tA).2.delete 1).2.create tB).1.id ≠ some 1)) ∧
    (∀ (repo : Repository Assignment) (a : Assignment),
        (repo.create a).1.id = some repo.next_id ∧
        (repo.create a).2.next_id = repo.next_id + 1) ∧
    (∀ (repo : Repository Assignment) (k : Nat) (a : Assignment),
        (repo.delete k).2.next_id = repo.next_id ∧
        (repo.update k a).2.next_id = repo.next_id) ∧
    (∀ aA aB : Assignment,
        (Repository.empty.create aA).1.id = some 1 ∧
        ((((Repository.empty.create aA).2.delete 1).2.create aB).1.id = some 2) ∧
        ((((Repository.empty.create aA).2.delete 1).2.create aB).1.id ≠ some 1)) := by
  refine ⟨?_, ?_, ?_, ?_, ?_, ?_, ?_, ?_, ?_⟩
  · intro repo d
    exact ⟨rfl, rfl⟩
  · intro repo k d
    exact ⟨repo_delete_next_id repo k, repo_update_next_id repo k d⟩
  · intro dA dB
    refine ⟨rfl, rfl, ?_⟩
    intro h
    have h2 : (some 2 : Option Nat) = some 1 := h
    simp at h2
  · intro repo t
    exact ⟨rfl, rfl⟩
  · intro repo k t
    exact ⟨repo_delete_next_id repo k, repo_update_next_id repo k t⟩
  · intro tA tB
    refine ⟨rfl, rfl, ?_⟩
    intro h
    have h2 : (some 2 : Option Nat) = some 1 := h
    simp at h2
  · intro repo a
    exact ⟨rfl, rfl⟩
  · intro repo k a
    exact ⟨repo_delete_next_id repo k, repo_update_next_id repo k a⟩
  · intro aA aB
    refine ⟨rfl, rfl, ?_⟩
    intro h
    have h2 : (some 2 : Option Nat) = some 1 := h
    simp at h2

/-- C9: whenever create_assignment or update_assignment fails with an
error, all three stores (drivers, trucks and assignments, next-id
counters included) are exactly as they were before the call: every
validation check runs before any mutation. -/
theorem failed_assignment_ops_leave_stores_unchanged (s : Stores)
    (a : Assignment) (k : Nat) (e : ServiceError) :
    ((AssignmentService.create_assignment s a).1 = .error e →
      (AssignmentService.create_assignment s a).2 = s) ∧
    ((AssignmentService.update_assignment s k a).1 = .error e →
      (AssignmentService.update_assignment s k a).2 = s) :=
  ⟨create_assignment_error_frame s a e, update_assignment_error_frame s k a e⟩

/-- Witness for C9: on a store holding one assignment but no drivers,
both creation and update fail with NotFound(Driver) and leave the
stores untouched. -/
theorem failed_assignment_ops_witness :
    (AssignmentService.create_assignment
        (⟨⟨[], 1⟩, ⟨[], 1⟩, ⟨[(1, ⟨some 1, 1, 1, ⟨2025, 11, 10⟩⟩)], 2⟩⟩ : Stores)
        ⟨none, 1, 1, ⟨2025, 11, 10⟩⟩).2
      = (⟨⟨[], 1⟩, ⟨[], 1⟩, ⟨[(1, ⟨some 1, 1, 1, ⟨2025, 11, 10⟩⟩)], 2⟩⟩ : Stores) ∧
    (AssignmentService.update_assignment
        (⟨⟨[], 1⟩, ⟨[], 1⟩, ⟨[(1, ⟨some 1, 1, 1, ⟨2025, 11, 10⟩⟩)], 2⟩⟩ : Stores)
        1 ⟨none, 1, 1, ⟨2025, 11, 10⟩⟩).2
      = (⟨⟨[], 1⟩, ⟨[], 1⟩, ⟨[(1, ⟨some 1, 1, 1, ⟨2025, 11, 10⟩⟩)], 2⟩⟩ : Stores) :=
  ⟨(failed_assignment_ops_leave_stores_unchanged _ _ 1 (.notFound "Driver" 1)).1 rfl,
   (failed_assignment_ops_leave_stores_unchanged _ _ 1 (.notFound "Driver" 1)).2 rfl⟩

/-- C1: in every store state reachable from the empty stores by the
service operations (failed operations leave the state unchanged, so
this covers exactly the sequences of successful creates, updates and
deletes), for every calendar date each driver id occurs in at most one
stored assignment with that date, and each truck id occurs in at most
one stored assignment with that date. -/
theorem assignment_uniqueness_invariant (s : Stores) (h : Reachable s)
    (did tid : Nat) (dt : CalendarDate) :
    s.assignments.get_all.countP
        (fun x => decide (x.driver_id = did ∧ x.assignment_date = dt)) ≤ 1 ∧
    s.assignments.get_all.countP
        (fun x => decide (x.truck_id = tid ∧ x.assignment_date = dt)) ≤ 1 := by
  have hU : s.assignments.entries.Pairwise
      (fun p q => ¬ sameDriverDate p.2 q.2 ∧ ¬ sameTruckDate p.2 q.2) :=
    (reachable_storesWF h).2.2.2
  constructor
  · unfold Repository.get_all
    rw [List.countP_map]
    apply countP_le_one_of_pairwise hU
    intro x y hx hy hR
    simp only [Function.comp_apply, decide_eq_true_eq] at hx hy
    exact hR.1 ⟨hx.1.trans hy.1.symm, hx.2.trans hy.2.symm⟩
  · unfold Repository.get_all
    rw [List.countP_map]
    apply countP_le_one_of_pairwise hU
    intro x y hx hy hR
    simp only [Function.comp_apply, decide_eq_true_eq] at hx hy
    exact hR.2 ⟨hx.1.trans hy.1.symm, hx.2.trans hy.2.symm⟩

/-- Witness for C1 at the sample state holding one assignment. -/
theorem assignment_uniqueness_witness :
    sampleStores.assignments.get_all.countP
        (fun x => decide (x.driver_id = 1 ∧ x.assignment_date = ⟨2025, 11, 10⟩)) ≤ 1 ∧
    sampleStores.assignments.get_all.countP
        (fun x => decide (x.truck_id = 1 ∧ x.assignment_date = ⟨2025, 11, 10⟩)) ≤ 1 :=
  assignment_uniqueness_invariant sampleStores sampleStores_reachable 1 1 ⟨2025, 11, 10⟩

/-- C3: in a reachable store state in which assignment k is stored with
fields (driverId, truckId, date), the driver and truck exist and the
license is compatible, updating k to those same fields succeeds: the
availability checks exclude the assignment being updated itself. -/
theorem update_assignment_self_succeeds (s : Stores) (h : Reachable s)
    (k : Nat) (stored newA : Assignment) (driver : Driver) (truck : Truck)
    (hex : s.assignments.get_by_id k = some stored)
    (hd : s.drivers.get_by_id newA.driver_id = some driver)
    (ht : s.trucks.get_by_id newA.truck_id = some truck)
    (hl : driver.license_type.can_operate truck.minimum_license_type = true)
    (h1 : newA.driver_id = stored.driver_id)
    (h2 : newA.truck_id = stored.truck_id)
    (h3 : newA.assignment_date = stored.assignment_date) :
    (AssignmentService.update_assignment s k newA).1
      = .ok { newA with id := some k } := by
  have hWF := (reachable_storesWF h).2.2.1
  have hU := (reachable_storesWF h).2.2.2
  have hmem : (k, stored) ∈ s.assignments.entries := dictGet_mem hex
  have hcd := check_driver_excl_self_ok hWF hU hmem h1.symm h3.symm
  have hct := check_truck_excl_self_ok hWF hU hmem h2.symm h3.symm
  rw [update_assignment_eq_ok hex hd ht hl hcd hct]
  rfl

/-- Witness for C3: updating the sample assignment to its own
driver/truck/date succeeds. -/
theorem update_assignment_self_witness :
    (AssignmentService.update_assignment sampleStores 1
        ⟨none, 1, 1, ⟨2025, 11, 10⟩⟩).1
      = .ok ⟨some 1, 1, 1, ⟨2025, 11, 10⟩⟩ :=
  update_assignment_self_succeeds sampleStores sampleStores_reachable 1
    ⟨some 1, 1, 1, ⟨2025, 11, 10⟩⟩ ⟨none, 1, 1, ⟨2025, 11, 10⟩⟩
    ⟨some 1, "Ana", LicenseType.D⟩ ⟨some 1, "ABC-1234", LicenseType.C⟩
    rfl rfl rfl (by decide) rfl rfl rfl

/-- C10: in every reachable state each stored entity's id field is set
and equals its map key, every key is positive and strictly below the
store's next-id counter; consequently in the create path (no excluded
id) the availability checks report a conflict whenever any matching
assignment exists. -/
theorem stored_ids_wellformed_and_create_conflict (s : Stores) (h : Reachable s) :
    (∀ p ∈ s.drivers.entries,
        p.2.id = some p.1 ∧ 1 ≤ p.1 ∧ p.1 < s.drivers.next_id) ∧
    (∀ p ∈ s.trucks.entries,
        p.2.id = some p.1 ∧ 1 ≤ p.1 ∧ p.1 < s.trucks.next_id) ∧
    (∀ p ∈ s.assignments.entries,
        p.2.id = some p.1 ∧ 1 ≤ p.1 ∧ p.1 < s.assignments.next_id) ∧
    (∀ did dt,
      (∃ p ∈ s.assignments.entries,
          p.2.driver_id = did ∧ p.2.assignment_date = dt) →
      ∃ tid2, AssignmentService.check_driver_availability
          s.assignments did dt none = .error (.driverConflict did tid2 dt)) ∧
    (∀ tid dt,
      (∃ p ∈ s.assignments.entries,
          p.2.truck_id = tid ∧ p.2.assignment_date = dt) →
      ∃ did2, AssignmentService.check_truck_availability
          s.assignments tid dt none = .error (.truckConflict tid did2 dt)) := by
  obtain ⟨hd, ht, ha, _⟩ := reachable_storesWF h
  refine ⟨?_, ?_, ?_, ?_, ?_⟩
  · intro p hp
    have := hd.1 p hp
    rwa [getId_driver] at this
  · intro p hp
    have := ht.1 p hp
    rwa [getId_truck] at this
  · intro p hp
    have := ha.1 p hp
    rwa [getId_assignment] at this
  · intro did dt hex
    exact check_driver_conflict ha hex
  · intro tid dt hex
    exact check_truck_conflict ha hex

/-- Witness for C10: the sample driver entry has its id set to its key,
which is positive and below the counter. -/
theorem stored_ids_wellformed_witness :
    (⟨some 1, "Ana", LicenseType.D⟩ : Driver).id = some 1 ∧ 1 ≤ 1 ∧
      1 < sampleStores.drivers.next_id :=
  (stored_ids_wellformed_and_create_conflict sampleStores
      sampleStores_reachable).1
    (1, ⟨some 1, "Ana", LicenseType.D⟩) (by decide)

/-- C7: after a successful delete of an id (in any of the three
services), fetching that id fails with NotFound, and a second delete of
the same id also fails with NotFound — a typed error result each time,
never another outcome. -/
theorem delete_then_get_notFound (s : Stores) (k : Nat) :
    ((DriverService.delete_driver s k).1 = .ok () →
      DriverService.get_driver (DriverService.delete_driver s k).2 k
          = .error (.notFound "Driver" k) ∧
      (DriverService.delete_driver (DriverService.delete_driver s k).2 k).1
          = .error (.notFound "Driver" k)) ∧
    ((TruckService.delete_truck s k).1 = .ok () →
      TruckService.get_truck (TruckService.delete_truck s k).2 k
          = .error (.notFound "Truck" k) ∧
      (TruckService.delete_truck (TruckService.delete_truck s k).2 k).1
          = .error (.notFound "Truck" k)) ∧
    ((AssignmentService.delete_assignment s k).1 = .ok () →
      AssignmentService.get_assignment (AssignmentService.delete_assignment s k).2 k
          = .error (.notFound "Assignment" k) ∧
      (AssignmentService.delete_assignment (AssignmentService.delete_assignment s k).2 k).1
          = .error (.notFound "Assignment" k)) := by
  refine ⟨?_, ?_, ?_⟩
  · intro hok
    cases hb : (s.drivers.delete k).1 with
    | false =>
      exfalso
      unfold DriverService.delete_driver at hok
      dsimp only at hok
      rw [hb] at hok
      simp at hok
    | true =>
      have hstate : (DriverService.delete_driver s k).2
          = { s with drivers := ⟨dictDelete s.drivers.entries k, s.drivers.next_id⟩ } := by
        unfold DriverService.delete_driver
        dsimp only
        rw [hb]
        simp only [if_true]
        rw [repo_delete_of_true hb]
      rw [hstate]
      constructor
      · unfold DriverService.get_driver Repository.get_by_id
        dsimp only
        rw [dictGet_delete_self]
      · unfold DriverService.delete_driver Repository.delete
        dsimp only
        rw [dictContains_delete_self]
        simp
  · intro hok
    cases hb : (s.trucks.delete k).1 with
    | false =>
      exfalso
      unfold TruckService.delete_truck at hok
      dsimp only at hok
      rw [hb] at hok
      simp at hok
    | true =>
      have hstate : (TruckService.delete_truck s k).2
          = { s with trucks := ⟨dictDelete s.trucks.entries k, s.trucks.next_id⟩ } := by
        unfold TruckService.delete_truck
        dsimp only
        rw [hb]
        simp only [if_true]
        rw [repo_delete_of_true hb]
      rw [hstate]
      constructor
      · unfold TruckService.get_truck Repository.get_by_id
        dsimp only
        rw [dictGet_delete_self]
      · unfold TruckService.delete_truck Repository.delete
        dsimp only
        rw [dictContains_delete_self]
        simp
  · intro hok
    cases hb : (s.assignments.delete k).1 with
    | false =>
      exfalso
      unfold AssignmentService.delete_assignment at hok
      dsimp only at hok
      rw [hb] at hok
      simp at hok
    | true =>
      have hstate : (AssignmentService.delete_assignment s k).2
          = { s with assignments := ⟨dictDelete s.assignments.entries k, s.assignments.next_id⟩ } := by
        unfold AssignmentService.delete_assignment
        dsimp only
        rw [hb]
        simp only [if_true]
        rw [repo_delete_of_true hb]
      rw [hstate]
      constructor
      · unfold AssignmentService.get_assignment Repository.get_by_id
        dsimp only
        rw [dictGet_delete_self]
      · unfold AssignmentService.delete_assignment Repository.delete
        dsimp only
        rw [dictContains_delete_self]
        simp

/-- Witness for C7 at the sample state: deleting driver 1, truck 1 and
assignment 1 each succeeds, after which fetch and re-delete both return
NotFound. -/
theorem delete_then_get_witness :
    (DriverService.get_driver (DriverService.delete_driver sampleStores 1).2 1
        = .error (.notFound "Driver" 1) ∧
      (DriverService.delete_driver (DriverService.delete_driver sampleStores 1).2 1).1
        = .error (.notFound "Driver" 1)) ∧
    (TruckService.get_truck (TruckService.delete_truck sampleStores 1).2 1
        = .error (.notFound "Truck" 1) ∧
      (TruckService.delete_truck (TruckService.delete_truck sampleStores 1).2 1).1
        = .error (.notFound "Truck" 1)) ∧
    (AssignmentService.get_assignment
          (AssignmentService.delete_assignment sampleStores 1).2 1
        = .error (.notFound "Assignment" 1) ∧
      (AssignmentService.delete_assignment
          (AssignmentService.delete_assignment sampleStores 1).2 1).1
        = .error (.notFound "Assignment" 1)) :=
  ⟨(delete_then_get_notFound sampleStores 1).1 rfl,
   (delete_then_get_notFound sampleStores 1).2.1 rfl,
   (delete_then_get_notFound sampleStores 1).2.2 rfl⟩

/-- C8: deleting a driver (or a truck) modifies only that entity's own
store, removing at most the entry for the given id: the other two
stores — in particular the assignment store — are unchanged, so every
assignment referencing the deleted id stays stored with all its fields
unchanged. -/
theorem delete_driver_truck_frame (s : Stores) (k : Nat) :
    ((DriverService.delete_driver s k).2.trucks = s.trucks ∧
     (DriverService.delete_driver s k).2.assignments = s.assignments ∧
     (DriverService.delete_driver s k).2.drivers.next_id = s.drivers.next_id ∧
     (∀ j, j ≠ k →
       (DriverService.delete_driver s k).2.drivers.get_by_id j
         = s.drivers.get_by_id j) ∧
     (∀ j, (DriverService.delete_driver s k).2.assignments.get_by_id j
         = s.assignments.get_by_id j)) ∧
    ((TruckService.delete_truck s k).2.drivers = s.drivers ∧
     (TruckService.delete_truck s k).2.assignments = s.assignments ∧
     (TruckService.delete_truck s k).2.trucks.next_id = s.trucks.next_id ∧
     (∀ j, j ≠ k →
       (TruckService.delete_truck s k).2.trucks.get_by_id j
         = s.trucks.get_by_id j) ∧
     (∀ j, (TruckService.delete_truck s k).2.assignments.get_by_id j
         = s.assignments.get_by_id j)) := by
  constructor
  · have hsplit : (DriverService.delete_driver s k).2 = s ∨
        (DriverService.delete_driver s k).2
          = { s with drivers := ⟨dictDelete s.drivers.entries k, s.drivers.next_id⟩ } := by
      unfold DriverService.delete_driver
      dsimp only
      cases hb : (s.drivers.delete k).1 with
      | false =>
        left
        simp only [hb, Bool.false_eq_true, if_false]
      | true =>
        right
        simp only [hb, if_true]
        rw [repo_delete_of_true hb]
    rcases hsplit with hst | hst <;> rw [hst]
    · exact ⟨rfl, rfl, rfl, fun j _ => rfl, fun j => rfl⟩
    · refine ⟨rfl, rfl, rfl, ?_, fun j => rfl⟩
      intro j hj
      unfold Repository.get_by_id
      exact dictGet_delete_ne _ hj
  · have hsplit : (TruckService.delete_truck s k).2 = s ∨
        (TruckService.delete_truck s k).2
          = { s with trucks := ⟨dictDelete s.trucks.entries k, s.trucks.next_id⟩ } := by
      unfold TruckService.delete_truck
      dsimp only
      cases hb : (s.trucks.delete k).1 with
      | false =>
        left
        simp only [hb, Bool.false_eq_true, if_false]
      | true =>
        right
        simp only [hb, if_true]
        rw [repo_delete_of_true hb]
    rcases hsplit with hst | hst <;> rw [hst]
    · exact ⟨rfl, rfl, rfl, fun j _ => rfl, fun j => rfl⟩
    · refine ⟨rfl, rfl, rfl, ?_, fun j => rfl⟩
      intro j hj
      unfold Repository.get_by_id
      exact dictGet_delete_ne _ hj

/-- Witness for C8 at the sample state: after deleting driver 1, lookups
of a different driver id are unchanged and the assignment referencing
the deleted driver is still fetchable unchanged. -/
theorem delete_frame_witness :
    ((2 : Nat) ≠ 1) ∧
    (DriverService.delete_driver sampleStores 1).2.drivers.get_by_id 2
      = sampleStores.drivers.get_by_id 2 ∧
    (DriverService.delete_driver sampleStores 1).2.assignments.get_by_id 1
      = sampleStores.assignments.get_by_id 1 :=
  ⟨by decide,
   ((delete_driver_truck_frame sampleStores 1).1.2.2.2.1) 2 (by decide),
   ((delete_driver_truck_frame sampleStores 1).1.2.2.2.2) 1⟩

/-- Exhaustive case analysis of create_assignment: exactly one of the
six pipeline outcomes applies, each tagged with the conditions that
lead to it. -/
theorem create_assignment_cases (s : Stores) (a : Assignment) :
    (s.drivers.get_by_id a.driver_id = none ∧
      (AssignmentService.create_assignment s a).1
        = .error (.notFound "Driver" a.driver_id))
    ∨ (∃ driver, s.drivers.get_by_id a.driver_id = some driver ∧
        s.trucks.get_by_id a.truck_id = none ∧
        (AssignmentService.create_assignment s a).1
          = .error (.notFound "Truck" a.truck_id))
    ∨ (∃ driver truck, s.drivers.get_by_id a.driver_id = some driver ∧
        s.trucks.get_by_id a.truck_id = some truck ∧
        driver.license_type.can_operate truck.minimum_license_type = false ∧
        (AssignmentService.create_assignment s a).1
          = .error (.licenseValidation driver.license_type truck.minimum_license_type))
    ∨ (∃ driver truck e, s.drivers.get_by_id a.driver_id = some driver ∧
        s.trucks.get_by_id a.truck_id = some truck ∧
        driver.license_type.can_operate truck.minimum_license_type = true ∧
        AssignmentService.check_driver_availability
            s.assignments a.driver_id a.assignment_date none = .error e ∧
        (AssignmentService.create_assignment s a).1 = .error e)
    ∨ (∃ driver truck e, s.drivers.get_by_id a.driver_id = some driver ∧
        s.trucks.get_by_id a.truck_id = some truck ∧
        driver.license_type.can_operate truck.minimum_license_type = true ∧
        AssignmentService.check_driver_availability
            s.assignments a.driver_id a.assignment_date none = .ok () ∧
        AssignmentService.check_truck_availability
            s.assignments a.truck_id a.assignment_date none = .error e ∧
        (AssignmentService.create_assignment s a).1 = .error e)
    ∨ (∃ driver truck, s.drivers.get_by_id a.driver_id = some driver ∧
        s.trucks.get_by_id a.truck_id = some truck ∧
        driver.license_type.can_operate truck.minimum_license_type = true ∧
        AssignmentService.check_driver_availability
            s.assignments a.driver_id a.assignment_date none = .ok () ∧
        AssignmentService.check_truck_availability
            s.assignments a.truck_id a.assignment_date none = .ok () ∧
        (AssignmentService.create_assignment s a).1
          = .ok (s.assignments.create a).1 ∧
        (AssignmentService.create_assignment s a).2
          = { s with assignments := (s.assignments.create a).2 }) := by
  cases hd : s.drivers.get_by_id a.driver_id with
  | none =>
    exact Or.inl ⟨rfl, by rw [create_assignment_eq_noDriver hd]⟩
  | some driver =>
  cases ht : s.trucks.get_by_id a.truck_id with
  | none =>
    exact Or.inr (Or.inl ⟨driver, rfl, rfl,
      by rw [create_assignment_eq_noTruck hd ht]⟩)
  | some truck =>
  cases hl : driver.license_type.can_operate truck.minimum_license_type with
  | false =>
    exact Or.inr (Or.inr (Or.inl ⟨driver, truck, rfl, rfl, hl,
      by rw [create_assignment_eq_badLicense hd ht hl]⟩))
  | true =>
  cases hcd : AssignmentService.check_driver_availability
      s.assignments a.driver_id a.assignment_date none with
  | error e =>
    exact Or.inr (Or.inr (Or.inr (Or.inl ⟨driver, truck, e, rfl, rfl, hl, rfl,
      by rw [create_assignment_eq_driverConflict hd ht hl hcd]⟩)))
  | ok u =>
  cases u
  cases hct : AssignmentService.check_truck_availability
      s.assignments a.truck_id a.assignment_date none with
  | error e =>
    exact Or.inr (Or.inr (Or.inr (Or.inr (Or.inl
      ⟨driver, truck, e, rfl, rfl, hl, rfl, rfl,
        by rw [create_assignment_eq_truckConflict hd ht hl hcd hct]⟩))))
  | ok u2 =>
  cases u2
  exact Or.inr (Or.inr (Or.inr (Or.inr (Or.inr
    ⟨driver, truck, rfl, rfl, hl, rfl, rfl,
      by rw [create_assignment_eq_ok hd ht hl hcd hct],
      by rw [create_assignment_eq_ok hd ht hl hcd hct]⟩))))

/-- C2: in a reachable store state, create_assignment applies its checks
in order — driver existence, truck existence, license compatibility,
driver availability, truck availability — and the earliest failing
check determines the error: NotFound naming the driver iff the driver
id is absent; otherwise NotFound naming the truck iff the truck id is
absent; otherwise a Validation error iff the license is incompatible;
otherwise a driver Conflict naming the existing assignment's truck id
iff some stored assignment has that driver and date; otherwise a truck
Conflict naming the existing assignment's driver id iff some stored
assignment has that truck and date; otherwise it succeeds and the
assignment is stored under the fresh id next_id. -/
theorem create_assignment_check_order (s : Stores) (a : Assignment)
    (h : Reachable s) :
    ((AssignmentService.create_assignment s a).1
        = .error (.notFound "Driver" a.driver_id)
      ↔ s.drivers.get_by_id a.driver_id = none) ∧
    (∀ driver, s.drivers.get_by_id a.driver_id = some driver →
      ((AssignmentService.create_assignment s a).1
          = .error (.notFound "Truck" a.truck_id)
        ↔ s.trucks.get_by_id a.truck_id = none)) ∧
    (∀ driver truck, s.drivers.get_by_id a.driver_id = some driver →
      s.trucks.get_by_id a.truck_id = some truck →
      ((AssignmentService.create_assignment s a).1
          = .error (.licenseValidation driver.license_type
              truck.minimum_license_type)
        ↔ driver.license_type.can_operate truck.minimum_license_type = false)) ∧
    (∀ driver truck, s.drivers.get_by_id a.driver_id = some driver →
      s.trucks.get_by_id a.truck_id = some truck →
      driver.license_type.can_operate truck.minimum_license_type = true →
      (((∃ tid, (AssignmentService.create_assignment s a).1
            = .error (.driverConflict a.driver_id tid a.assignment_date))
        ↔ ∃ p ∈ s.assignments.entries,
            p.2.driver_id = a.driver_id ∧
            p.2.assignment_date = a.assignment_date) ∧
       ∀ tid, (AssignmentService.create_assignment s a).1
            = .error (.driverConflict a.driver_id tid a.assignment_date) →
          ∃ p ∈ s.assignments.entries,
            p.2.driver_id = a.driver_id ∧
            p.2.assignment_date = a.assignment_date ∧
            p.2.truck_id = tid)) ∧
    (∀ driver truck, s.drivers.get_by_id a.driver_id = some driver →
      s.trucks.get_by_id a.truck_id = some truck →
      driver.license_type.can_operate truck.minimum_license_type = true →
      (∀ p ∈ s.assignments.entries,
        ¬ (p.2.driver_id = a.driver_id ∧
            p.2.assignment_date = a.assignment_date)) →
      (((∃ did2, (AssignmentService.create_assignment s a).1
            = .error (.truckConflict a.truck_id did2 a.assignment_date))
        ↔ ∃ p ∈ s.assignments.entries,
            p.2.truck_id = a.truck_id ∧
            p.2.assignment_date = a.assignment_date) ∧
       ∀ did2, (AssignmentService.create_assignment s a).1
            = .error (.truckConflict a.truck_id did2 a.assignment_date) →
          ∃ p ∈ s.assignments.entries,
            p.2.truck_id = a.truck_id ∧
            p.2.assignment_date = a.assignment_date ∧
            p.2.driver_id = did2)) ∧
    (∀ driver truck, s.drivers.get_by_id a.driver_id = some driver →
      s.trucks.get_by_id a.truck_id = some truck →
      driver.license_type.can_operate truck.minimum_license_type = true →
      (∀ p ∈ s.assignments.entries,
        ¬ (p.2.driver_id = a.driver_id ∧
            p.2.assignment_date = a.assignment_date)) →
      (∀ p ∈ s.assignments.entries,
        ¬ (p.2.truck_id = a.truck_id ∧
            p.2.assignment_date = a.assignment_date)) →
      (AssignmentService.create_assignment s a).1
          = .ok { a with id := some s.assignments.next_id } ∧
      (AssignmentService.create_assignment s a).2
          = { s with assignments :=
              ⟨s.assignments.entries
                  ++ [(s.assignments.next_id,
                        { a with id := some s.assignments.next_id })],
                s.assignments.next_id + 1⟩ } ∧
      s.assignments.exists_id s.assignments.next_id = false) := by
  have hWF := (reachable_storesWF h).2.2.1
  refine ⟨?_, ?_, ?_, ?_, ?_, ?_⟩
  · rcases create_assignment_cases s a with
      ⟨hd0, hr⟩ | ⟨driver0, hd0, ht0, hr⟩ | ⟨driver0, truck0, hd0, ht0, hl0, hr⟩ |
      ⟨driver0, truck0, e0, hd0, ht0, hl0, hcd0, hr⟩ |
      ⟨driver0, truck0, e0, hd0, ht0, hl0, hcd0, hct0, hr⟩ |
      ⟨driver0, truck0, hd0, ht0, hl0, hcd0, hct0, hr1, hr2⟩
    · exact iff_of_true hr hd0
    · exact iff_of_false (by rw [hr]; simp) (by simp [hd0])
    · exact iff_of_false (by rw [hr]; simp) (by simp [hd0])
    · rcases check_driver_error_shape hcd0 with ⟨p, hp, hm1, hm2, he⟩
      exact iff_of_false (by rw [hr, he]; simp) (by simp [hd0])
    · rcases check_truck_error_shape hct0 with ⟨p, hp, hm1, hm2, he⟩
      exact iff_of_false (by rw [hr, he]; simp) (by simp [hd0])
    · exact iff_of_false (by rw [hr1]; simp) (by simp [hd0])
  · intro driver hdq
    rcases create_assignment_cases s a with
      ⟨hd0, hr⟩ | ⟨driver0, hd0, ht0, hr⟩ | ⟨driver0, truck0, hd0, ht0, hl0, hr⟩ |
      ⟨driver0, truck0, e0, hd0, ht0, hl0, hcd0, hr⟩ |
      ⟨driver0, truck0, e0, hd0, ht0, hl0, hcd0, hct0, hr⟩ |
      ⟨driver0, truck0, hd0, ht0, hl0, hcd0, hct0, hr1, hr2⟩
    · rw [hd0] at hdq
      simp at hdq
    · exact iff_of_true hr ht0
    · exact iff_of_false (by rw [hr]; simp) (by simp [ht0])
    · rcases check_driver_error_shape hcd0 with ⟨p, hp, hm1, hm2, he⟩
      exact iff_of_false (by rw [hr, he]; simp) (by simp [ht0])
    · rcases check_truck_error_shape hct0 with ⟨p, hp, hm1, hm2, he⟩
      exact iff_of_false (by rw [hr, he]; simp) (by simp [ht0])
    · exact iff_of_false (by rw [hr1]; simp) (by simp [ht0])
  · intro driver truck hdq htq
    rcases create_assignment_cases s a with
      ⟨hd0, hr⟩ | ⟨driver0, hd0, ht0, hr⟩ | ⟨driver0, truck0, hd0, ht0, hl0, hr⟩ |
      ⟨driver0, truck0, e0, hd0, ht0, hl0, hcd0, hr⟩ |
      ⟨driver0, truck0, e0, hd0, ht0, hl0, hcd0, hct0, hr⟩ |
      ⟨driver0, truck0, hd0, ht0, hl0, hcd0, hct0, hr1, hr2⟩
    · rw [hd0] at hdq
      simp at hdq
    · rw [ht0] at htq
      simp at htq
    · rw [hd0] at hdq
      injection hdq with hde
      subst hde
      rw [ht0] at htq
      injection htq with hte
      subst hte
      exact iff_of_true hr hl0
    · rw [hd0] at hdq
      injection hdq with hde
      subst hde
      rw [ht0] at htq
      injection htq with hte
      subst hte
      rcases check_driver_error_shape hcd0 with ⟨p, hp, hm1, hm2, he⟩
      exact iff_of_false (by rw [hr, he]; simp) (by simp [hl0])
    · rw [hd0] at hdq
      injection hdq with hde
      subst hde
      rw [ht0] at htq
      injection htq with hte
      subst hte
      rcases check_truck_error_shape hct0 with ⟨p, hp, hm1, hm2, he⟩
      exact iff_of_false (by rw [hr, he]; simp) (by simp [hl0])
    · rw [hd0] at hdq
      injection hdq with hde
      subst hde
      rw [ht0] at htq
      injection htq with hte
      subst hte
      exact iff_of_false (by rw [hr1]; simp) (by simp [hl0])
  · intro driver truck hdq htq hlq
    rcases create_assignment_cases s a with
      ⟨hd0, hr⟩ | ⟨driver0, hd0, ht0, hr⟩ | ⟨driver0, truck0, hd0, ht0, hl0, hr⟩ |
      ⟨driver0, truck0, e0, hd0, ht0, hl0, hcd0, hr⟩ |
      ⟨driver0, truck0, e0, hd0, ht0, hl0, hcd0, hct0, hr⟩ |
      ⟨driver0, truck0, hd0, ht0, hl0, hcd0, hct0, hr1, hr2⟩
    · rw [hd0] at hdq
      simp at hdq
    · rw [ht0] at htq
      simp at htq
    · rw [hd0] at hdq
      injection hdq with hde
      subst hde
      rw [ht0] at htq
      injection htq with hte
      subst hte
      rw [hl0] at hlq
      simp at hlq
    · rcases check_driver_error_shape hcd0 with ⟨p, hp, hm1, hm2, he⟩
      constructor
      · exact iff_of_true ⟨p.2.truck_id, by rw [hr, he]⟩ ⟨p, hp, hm1, hm2⟩
      · intro tid htid
        rw [hr, he] at htid
        simp only [Except.error.injEq, ServiceError.driverConflict.injEq] at htid
        exact ⟨p, hp, hm1, hm2, htid.2.1⟩
    · rcases check_truck_error_shape hct0 with ⟨p, hp, hm1, hm2, he⟩
      constructor
      · apply iff_of_false
        · rintro ⟨tid, htid⟩
          rw [hr, he] at htid
          simp at htid
        · rintro ⟨q, hq, hq1, hq2⟩
          exact (check_driver_none_ok_iff hWF).1 hcd0 q hq ⟨hq1, hq2⟩
      · intro tid htid
        rw [hr, he] at htid
        simp at htid
    · constructor
      · apply iff_of_false
        · rintro ⟨tid, htid⟩
          rw [hr1] at htid
          simp at htid
        · rintro ⟨q, hq, hq1, hq2⟩
          exact (check_driver_none_ok_iff hWF).1 hcd0 q hq ⟨hq1, hq2⟩
      · intro tid htid
        rw [hr1] at htid
        simp at htid
  · intro driver truck hdq htq hlq hnd
    rcases create_assignment_cases s a with
      ⟨hd0, hr⟩ | ⟨driver0, hd0, ht0, hr⟩ | ⟨driver0, truck0, hd0, ht0, hl0, hr⟩ |
      ⟨driver0, truck0, e0, hd0, ht0, hl0, hcd0, hr⟩ |
      ⟨driver0, truck0, e0, hd0, ht0, hl0, hcd0, hct0, hr⟩ |
      ⟨driver0, truck0, hd0, ht0, hl0, hcd0, hct0, hr1, hr2⟩
    · rw [hd0] at hdq
      simp at hdq
    · rw [ht0] at htq
      simp at htq
    · rw [hd0] at hdq
      injection hdq with hde
      subst hde
      rw [ht0] at htq
      injection htq with hte
      subst hte
      rw [hl0] at hlq
      simp at hlq
    · rcases check_driver_error_shape hcd0 with ⟨p, hp, hm1, hm2, _⟩
      exact absurd ⟨hm1, hm2⟩ (hnd p hp)
    · rcases check_truck_error_shape hct0 with ⟨p, hp, hm1, hm2, he⟩
      constructor
      · exact iff_of_true ⟨p.2.driver_id, by rw [hr, he]⟩ ⟨p, hp, hm1, hm2⟩
      · intro did2 hdid
        rw [hr, he] at hdid
        simp only [Except.error.injEq, ServiceError.truckConflict.injEq] at hdid
        exact ⟨p, hp, hm1, hm2, hdid.2.1⟩
    · constructor
      · apply iff_of_false
        · rintro ⟨did2, hdid⟩
          rw [hr1] at hdid
          simp at hdid
        · rintro ⟨q, hq, hq1, hq2⟩
          exact (check_truck_none_ok_iff hWF).1 hct0 q hq ⟨hq1, hq2⟩
      · intro did2 hdid
        rw [hr1] at hdid
        simp at hdid
  · intro driver truck hdq htq hlq hnd hnt
    rcases create_assignment_cases s a with
      ⟨hd0, hr⟩ | ⟨driver0, hd0, ht0, hr⟩ | ⟨driver0, truck0, hd0, ht0, hl0, hr⟩ |
      ⟨driver0, truck0, e0, hd0, ht0, hl0, hcd0, hr⟩ |
      ⟨driver0, truck0, e0, hd0, ht0, hl0, hcd0, hct0, hr⟩ |
      ⟨driver0, truck0, hd0, ht0, hl0, hcd0, hct0, hr1, hr2⟩
    · rw [hd0] at hdq
      simp at hdq
    · rw [ht0] at htq
      simp at htq
    · rw [hd0] at hdq
      injection hdq with hde
      subst hde
      rw [ht0] at htq
      injection htq with hte
      subst hte
      rw [hl0] at hlq
      simp at hlq
    · rcases check_driver_error_shape hcd0 with ⟨p, hp, hm1, hm2, _⟩
      exact absurd ⟨hm1, hm2⟩ (hnd p hp)
    · rcases check_truck_error_shape hct0 with ⟨p, hp, hm1, hm2, _⟩
      exact absurd ⟨hm1, hm2⟩ (hnt p hp)
    · have hfresh : dictContains s.assignments.entries s.assignments.next_id = false := by
        apply dictContains_eq_false
        intro v hv
        have := (hWF.1 (s.assignments.next_id, v) hv).2.2
        omega
      refine ⟨by rw [hr1]; rfl, ?_, hfresh⟩
      rw [hr2]
      have hcre : (s.assignments.create a).2
          = ⟨s.assignments.entries
                ++ [(s.assignments.next_id,
                      { a with id := some s.assignments.next_id })],
              s.assignments.next_id + 1⟩ := by
        unfold Repository.create
        dsimp only
        rw [dictInsert_fresh _ hfresh]
        rfl
      rw [hcre]

/-- Witness for C2 at the sample state: proposing an assignment for the
absent driver 2 fails with NotFound naming that driver. -/
theorem create_assignment_check_order_witness :
    ((AssignmentService.create_assignment sampleStores
        ⟨none, 2, 1, ⟨2025, 11, 10⟩⟩).1
        = .error (.notFound "Driver" 2)
      ↔ sampleStores.drivers.get_by_id 2 = none) :=
  (create_assignment_check_order sampleStores ⟨none, 2, 1, ⟨2025, 11, 10⟩⟩
    sampleStores_reachable).1
